import Mathlib

/-!
Verification development for the multi-tenant token-vault proxy
(`token-vault-example`).  JavaScript sources are shallowly embedded:
each Node module's functions become executable Lean definitions,
in-memory `Map` objects become association lists threaded through the
handlers, `Date.now()` becomes an explicit `now : Nat` (milliseconds),
and every outbound HTTP call becomes an explicit outcome parameter.
-/

namespace TokenVault

/-- JavaScript truthiness for an optional string value
(`undefined`/`null` and the empty string are falsy). -/
def jsTruthy : Option String → Bool
  | some s => s ≠ ""
  | none => false

/-- JavaScript `a || d` for an optional string `a` and default `d`:
falsy values (missing or empty) fall back to the default. -/
def jsOr (a : Option String) (d : String) : String :=
  match a with
  | some s => if s = "" then d else s
  | none => d

/-- JavaScript template-literal interpolation of a possibly-null value:
`null` prints as the string "null". -/
def jsTemplate : Option String → String
  | some s => s
  | none => "null"

/-- Query / form parameter bags (`URLSearchParams`, Express `req.query`):
an association list of key/value pairs. -/
def Params := List (String × String)

instance : DecidableEq Params := by
  unfold Params; infer_instance

/-- The `URLSearchParams.get(k)`: first value for the key, `null` if absent. -/
def paramsGet (ps : Params) (k : String) : Option String :=
  (List.find? (fun p => p.1 = k) ps).map (fun p => p.2)

/-- A JavaScript `Map` keyed by strings: association list,
most recent binding first. -/
def JsMap (α : Type) := List (String × α)

/-- The `Map.get(k)`. -/
def jsMapGet {α : Type} (m : JsMap α) (k : String) : Option α :=
  (List.find? (fun p => p.1 = k) m).map (fun p => p.2)

/-- The `Map.set(k, v)` (replaces any existing binding for `k`). -/
def jsMapSet {α : Type} (m : JsMap α) (k : String) (v : α) : JsMap α :=
  (k, v) :: List.filter (fun p => p.1 ≠ k) m

/-- The `Map.delete(k)`. -/
def jsMapDel {α : Type} (m : JsMap α) (k : String) : JsMap α :=
  List.filter (fun p => p.1 ≠ k) m

/-! ## lib/return_authz_cache.js

In-memory cache mapping an issued return authorization code to the staged
agent access token plus the original flow context. -/

/-- One entry of the returning-authorization cache
(`addToCache` in `lib/return_authz_cache.js` stores exactly these fields). -/
structure ReturnCacheEntry where
  originalState : Option String
  tenantId : String
  originalParameters : Params
  accessToken : Option String
  createdAt : Nat
  deriving DecidableEq

/-- Fifteen-minute TTL (`CACHE_TTL_MS` in the cache modules), in milliseconds. -/
def CACHE_TTL_MS : Nat := 15 * 60 * 1000

/-- The `addToCache(returnAuthzCode, accessToken, originalState, tenantId,
originalParameters)` of `lib/return_authz_cache.js`. -/
def addToCache (m : JsMap ReturnCacheEntry) (returnAuthzCode : String)
    (accessToken : Option String) (originalState : Option String)
    (tenantId : String) (originalParameters : Params) (now : Nat) :
    JsMap ReturnCacheEntry :=
  jsMapSet m returnAuthzCode
    { originalState := originalState
      tenantId := tenantId
      originalParameters := originalParameters
      accessToken := accessToken
      createdAt := now }

/-- The `getCacheItem(returnAuthzCode)` of `lib/return_authz_cache.js`:
returns the live entry, lazily evicting an expired one
(`Date.now() - cached.createdAt > CACHE_TTL_MS`).
Returns the looked-up value together with the cache after eviction. -/
def getCacheItem (m : JsMap ReturnCacheEntry) (returnAuthzCode : String)
    (now : Nat) : Option ReturnCacheEntry × JsMap ReturnCacheEntry :=
  match jsMapGet m returnAuthzCode with
  | none => (none, m)
  | some cached =>
      if now - cached.createdAt > CACHE_TTL_MS then
        (none, jsMapDel m returnAuthzCode)
      else
        (some cached, m)

/-- The `clearCacheItem(returnAuthzCode)` of `lib/return_authz_cache.js`. -/
def clearCacheItem (m : JsMap ReturnCacheEntry) (returnAuthzCode : String) :
    JsMap ReturnCacheEntry :=
  jsMapDel m returnAuthzCode

/-! ## routes/token.js — the POST /token handler -/

/-- The body of a POST /token request (form-urlencoded or JSON);
absent fields are `none`. -/
structure TokenRequestBody where
  grant_type : Option String
  code : Option String
  client_id : Option String
  code_verifier : Option String
  redirect_uri : Option String
  deriving DecidableEq

/-- Responses of the /token endpoint. -/
inductive TokenResponse
  /-- The `res.status(status).json({error, error_description})`. -/
  | err (status : Nat) (error : String) (error_description : String)
  /-- The `res.status(200).json({access_token, token_type: 'Bearer'})`. -/
  | ok (status : Nat) (access_token : Option String)
  deriving DecidableEq

/-- HTTP status of a /token response. -/
def TokenResponse.statusOf : TokenResponse → Nat
  | .err s _ _ => s
  | .ok s _ => s

/-- The `validatePKCE(codeVerifier, codeChallenge, codeChallengeMethod)` of
`routes/token.js`, parameterised by the hash `sha256b64url v =
base64url(sha256(v))` computed there with Node's `crypto` module. -/
def validatePKCE (sha256b64url : String → String)
    (codeVerifier codeChallenge codeChallengeMethod : Option String) : Bool :=
  if ¬ jsTruthy codeVerifier ∨ ¬ jsTruthy codeChallenge then false
  else if codeChallengeMethod = some "S256" then
    sha256b64url (codeVerifier.getD "") = codeChallenge.getD ""
  else false

/-- The `app.post('/token')` handler of `routes/token.js`, one branch per
source line.  NOTE: in the source the call to `validatePKCE` (lines
126–131) is commented out, so after the `code_challenge`-presence check
the handler proceeds directly to the `client_id` comparison; the
embedding reproduces exactly the live code. -/
def tokenHandler (body : TokenRequestBody) (cache : JsMap ReturnCacheEntry)
    (now : Nat) : TokenResponse × JsMap ReturnCacheEntry :=
  if body.grant_type ≠ some "authorization_code" then
    (.err 400 "unsupported_grant_type"
      "Only authorization_code grant type is supported.", cache)
  else if ¬ jsTruthy body.code then
    (.err 400 "invalid_request" "The code parameter is required.", cache)
  else if ¬ jsTruthy body.client_id then
    (.err 400 "invalid_request" "The client_id parameter is required.", cache)
  else if ¬ jsTruthy body.code_verifier then
    (.err 400 "invalid_request"
      "The code_verifier parameter is required for PKCE.", cache)
  else if ¬ jsTruthy body.redirect_uri then
    (.err 400 "invalid_request" "Redirect_uri is required.", cache)
  else
    let code := body.code.getD ""
    let looked := getCacheItem cache code now
    let m2 := clearCacheItem looked.2 code
    match looked.1 with
    | none =>
        (.err 400 "invalid_grant"
          "The authorization code is invalid, expired, or has already been used.",
          m2)
    | some cachedAuthz =>
        let codeChallenge := paramsGet cachedAuthz.originalParameters "code_challenge"
        if ¬ jsTruthy codeChallenge then
          (.err 400 "invalid_request"
            "No code_challenge was found in the original authorization request.",
            m2)
        else
          -- the validatePKCE call is commented out here in the source
          let originalClientId := paramsGet cachedAuthz.originalParameters "client_id"
          if jsTruthy originalClientId ∧ originalClientId ≠ body.client_id then
            (.err 400 "invalid_grant"
              "The client_id does not match the original authorization request.",
              m2)
          else
            (.ok 200 cachedAuthz.accessToken, m2)

/-- A POST /token body passes the preliminary parameter validation (the
checks the handler performs before touching the code cache): grant type
`authorization_code` and all of `code`, `client_id`, `code_verifier`,
`redirect_uri` present and non-empty. -/
def prelimOK (b : TokenRequestBody) : Prop :=
  b.grant_type = some "authorization_code" ∧ jsTruthy b.code ∧
    jsTruthy b.client_id ∧ jsTruthy b.code_verifier ∧ jsTruthy b.redirect_uri

instance (b : TokenRequestBody) : Decidable (prelimOK b) := by
  unfold prelimOK; infer_instance

/-! ## lib/oidc_cache.js

In-memory cache for the proxy's outbound /authorize requests, keyed by the
generated outbound state (newer generation of the OIDC-outbound family). -/

/-- One entry of the OIDC request cache
(`cacheOidcRequest` in `lib/oidc_cache.js`). -/
structure OidcCacheEntry where
  tenantId : String
  parameters : Params
  originalState : Option String
  originalParameters : Params
  accessToken : Option String
  accessTokenScope : Option String
  accessTokenExpiresIn : Option Nat
  createdAt : Nat
  deriving DecidableEq

/-- The `cacheOidcRequest(outboundState, parameters, originalState,
originalParameters, accessToken, accessTokenScope, accessTokenExpiresIn,
tenantId)` of `lib/oidc_cache.js`. -/
def cacheOidcRequest (m : JsMap OidcCacheEntry) (outboundState : String)
    (parameters : Params) (originalState : Option String)
    (originalParameters : Params) (accessToken : Option String)
    (accessTokenScope : Option String) (accessTokenExpiresIn : Option Nat)
    (tenantId : String) (now : Nat) : JsMap OidcCacheEntry :=
  jsMapSet m outboundState
    { tenantId := tenantId
      parameters := parameters
      originalState := originalState
      originalParameters := originalParameters
      accessToken := accessToken
      accessTokenScope := accessTokenScope
      accessTokenExpiresIn := accessTokenExpiresIn
      createdAt := now }

/-- The `getOidcRequest(state)` of `lib/oidc_cache.js` (lazy eviction on
expiry, `Date.now() - cached.createdAt > CACHE_TTL_MS`). -/
def getOidcRequest (m : JsMap OidcCacheEntry) (state : String) (now : Nat) :
    Option OidcCacheEntry × JsMap OidcCacheEntry :=
  match jsMapGet m state with
  | none => (none, m)
  | some cached =>
      if now - cached.createdAt > CACHE_TTL_MS then
        (none, jsMapDel m state)
      else
        (some cached, m)

/-- The `clearOidcRequest(state)` of `lib/oidc_cache.js`. -/
def clearOidcRequest (m : JsMap OidcCacheEntry) (state : String) :
    JsMap OidcCacheEntry :=
  jsMapDel m state

/-! ## lib/outbound_request_cache.js

The other generation of the OIDC-outbound family, used by
`routes/authorize.js` and `routes/connected_accounts_callback.js`. -/

/-- One entry of the outbound request cache
(`cacheOutboundRequest` in `lib/outbound_request_cache.js`). -/
structure OutboundCacheEntry where
  tenantId : String
  parameters : Params
  originalState : Option String
  originalParameters : Params
  accessToken : Option String
  createdAt : Nat
  deriving DecidableEq

/-- The `cacheOutboundRequest(outboundState, parameters, originalState,
originalParameters, accessToken, tenantId)` of
`lib/outbound_request_cache.js`. -/
def cacheOutboundRequest (m : JsMap OutboundCacheEntry)
    (outboundState : String) (parameters : Params)
    (originalState : Option String) (originalParameters : Params)
    (accessToken : Option String) (tenantId : String) (now : Nat) :
    JsMap OutboundCacheEntry :=
  jsMapSet m outboundState
    { tenantId := tenantId
      parameters := parameters
      originalState := originalState
      originalParameters := originalParameters
      accessToken := accessToken
      createdAt := now }

/-- The `getCachedOutboundRequest(state)` of `lib/outbound_request_cache.js`. -/
def getCachedOutboundRequest (m : JsMap OutboundCacheEntry) (state : String)
    (now : Nat) : Option OutboundCacheEntry × JsMap OutboundCacheEntry :=
  match jsMapGet m state with
  | none => (none, m)
  | some cached =>
      if now - cached.createdAt > CACHE_TTL_MS then
        (none, jsMapDel m state)
      else
        (some cached, m)

/-- The `clearCachedOutboundRequest(state)` of `lib/outbound_request_cache.js`. -/
def clearCachedOutboundRequest (m : JsMap OutboundCacheEntry)
    (state : String) : JsMap OutboundCacheEntry :=
  jsMapDel m state

/-! ## lib/connected_account_session_cache.js

Link-session cache for the Connected Accounts flow, keyed by the random
`state` generated at begin-link. -/

/-- One entry of the connected-accounts session cache
(`cacheAuthSession` in `lib/connected_account_session_cache.js`). -/
structure SessionCacheEntry where
  authSession : String
  state : String
  oidcState : String
  userToken : String
  createdAt : Nat
  deriving DecidableEq

/-- The `cacheAuthSession(state, oidcState, authSession, userToken)` of
`lib/connected_account_session_cache.js`. -/
def cacheAuthSession (m : JsMap SessionCacheEntry) (state oidcState : String)
    (authSession userToken : String) (now : Nat) : JsMap SessionCacheEntry :=
  jsMapSet m state
    { authSession := authSession
      state := state
      oidcState := oidcState
      userToken := userToken
      createdAt := now }

/-- The `getCachedAuthSession(state)` of
`lib/connected_account_session_cache.js`. -/
def getCachedAuthSession (m : JsMap SessionCacheEntry) (state : String)
    (now : Nat) : Option SessionCacheEntry × JsMap SessionCacheEntry :=
  match jsMapGet m state with
  | none => (none, m)
  | some cached =>
      if now - cached.createdAt > CACHE_TTL_MS then
        (none, jsMapDel m state)
      else
        (some cached, m)

/-- The `clearCachedAuthSession(state)` of
`lib/connected_account_session_cache.js`. -/
def clearCachedAuthSession (m : JsMap SessionCacheEntry) (state : String) :
    JsMap SessionCacheEntry :=
  jsMapDel m state

/-! ## lib/token_vault.js — exchangeOktaAccessToken

The vault exchange: an internal Okta→Auth0 token exchange (via
`lib/okta_auth0_exchange.js`, an outbound HTTP call modelled as an
`Except` parameter), then a POST to `https://{domain}/oauth/token`
whose axios outcome is modelled explicitly. -/

/-- Outcome of the axios POST to the vault's `/oauth/token` endpoint:
a 2xx response carrying `response.data.access_token`, an error response
(`error.response` with `error.response.data.error`), a request with no
response (`error.request`), or a local request-setup failure. -/
inductive AxiosOutcome
  | ok (access_token : Option String)
  | errResponse (status : Nat) (error : Option String)
  | noResponse
  | setupError (message : String)
  deriving DecidableEq

/-- The result object built by `exchangeOktaAccessToken`
(`lib/token_vault.js`, success literal at lines 74–79 and the three
catch branches at lines 81–120). -/
structure VaultExchangeResult where
  success : Bool
  needsLinking : Bool
  accessToken : Option String
  message : Option String
  deriving DecidableEq

/-- The `try { axios.post } catch` mapping of `exchangeOktaAccessToken`
(`lib/token_vault.js` lines 65–120): a 401 whose error code is
`federated_connection_refresh_token_not_found` becomes the
needs-linking result; every other failure becomes a plain failure. -/
def exchangeVaultOutcome : AxiosOutcome → VaultExchangeResult
  | .ok tok =>
      { success := true, needsLinking := false, accessToken := tok,
        message := some "Token retrieved successfully!" }
  | .errResponse status err =>
      if status = 401 ∧ err = some "federated_connection_refresh_token_not_found" then
        { success := false, needsLinking := true, accessToken := none,
          message := some "No credentials found in the vault." }
      else
        { success := false, needsLinking := false, accessToken := none,
          message := err }
  | .noResponse =>
      { success := false, needsLinking := false, accessToken := none,
        message := some "Token exchange request failed: No response received" }
  | .setupError msg =>
      { success := false, needsLinking := false, accessToken := none,
        message := some ("Token exchange request failed: " ++ msg) }

/-- The `exchangeOktaAccessToken` of `lib/token_vault.js` (lines 25–121).
`auth0TokenResult` is the outcome of the internal
`getAuth0VaultTokenFromOktaToken` exchange (throw = `.error`, and
`response.data.access_token` may be missing); `vaultCall` is the
outbound POST to the vault.  A thrown internal failure is rethrown
(`.error`), a falsy internal token returns `null` (`.ok none`). -/
def exchangeOktaAccessToken (auth0TokenResult : Except String (Option String))
    (vaultCall : String → AxiosOutcome) :
    Except String (Option VaultExchangeResult) :=
  match auth0TokenResult with
  | .error err => .error ("Token exchange request failed: " ++ err)
  | .ok tok =>
      if ¬ jsTruthy tok then .ok none
      else .ok (some (exchangeVaultOutcome (vaultCall (tok.getD ""))))

/-! ## Scope rewriting in beginConnectedAccountFlow

`lib/token_vault.js` line 166:
`const finalScopes = externalScopes.join(" ")
  .replace("refresh_token", "offline_access").split(" ")`.
JavaScript strings are modelled as `List Char` here so that
`String.prototype.replace` with a string pattern (which replaces only
the FIRST occurrence, and matches substrings) is embedded exactly. -/

/-- The `Array.prototype.join(" ")`. -/
def joinSpace : List (List Char) → List Char
  | [] => []
  | [s] => s
  | s :: rest => s ++ ' ' :: joinSpace rest

/-- The `String.prototype.split(" ")` (single-character separator). -/
def splitSpace : List Char → List (List Char)
  | [] => [[]]
  | c :: cs =>
      if c = ' ' then [] :: splitSpace cs
      else
        match splitSpace cs with
        | [] => [[c]]
        | w :: ws => (c :: w) :: ws

/-- The `String.prototype.replace(pat, rep)` with a string pattern:
replace the first occurrence of `pat` only. -/
def replaceFirst (s pat rep : List Char) : List Char :=
  if pat.isPrefixOf s then rep ++ s.drop pat.length
  else
    match s with
    | [] => []
    | c :: cs => c :: replaceFirst cs pat rep

/-- The `String.prototype.includes(pat)`: `pat` occurs somewhere in `s`. -/
def containsSub (s pat : List Char) : Bool :=
  pat.isPrefixOf s ||
    match s with
    | [] => false
    | _ :: cs => containsSub cs pat

/-- The `finalScopes` computation of `beginConnectedAccountFlow`
(`lib/token_vault.js` line 166). -/
def finalScopes (externalScopes : List (List Char)) : List (List Char) :=
  splitSpace
    (replaceFirst (joinSpace externalScopes)
      "refresh_token".toList "offline_access".toList)

/-! ## lib/token_vault.js — beginConnectedAccountFlow -/

/-- Outcome of the axios POST to `/me/v1/connected-accounts/connect`. -/
inductive ConnectOutcome
  | ok (auth_session connect_uri ticket : String)
  | errResponse (error_description : Option String) (error : Option String)
  | noResponse
  | setupError (message : String)
  deriving DecidableEq

/-- The request body POSTed to the connected-accounts connect endpoint
(`lib/token_vault.js` lines 167–172). -/
structure ConnectRequestBody where
  connection : Option String
  redirect_uri : String
  state : String
  scopes : List (List Char)
  deriving DecidableEq

/-- The result object of `beginConnectedAccountFlow`. -/
structure BeginLinkResult where
  success : Bool
  connectUrl : Option String
  authSession : Option String
  state : Option String
  message : String
  deriving DecidableEq

/-- The `beginConnectedAccountFlow` of `lib/token_vault.js` (lines 146–235):
internal connected-accounts token exchange (throw = rethrown `.error`),
fresh random `linkState`, scope rewrite, POST to the connect endpoint;
on success the link session is stored under `linkState` and the link
URL is `connect_uri?ticket=<ticket>`. -/
def beginConnectedAccountFlow (auth0TokenResult : Except String String)
    (linkState : String) (oidcState : String) (connection : Option String)
    (completeRedirectUri : String) (externalScopes : List String)
    (connectCall : ConnectRequestBody → ConnectOutcome)
    (sessions : JsMap SessionCacheEntry) (now : Nat) :
    Except String (BeginLinkResult × JsMap SessionCacheEntry) :=
  match auth0TokenResult with
  | .error err => .error ("Token exchange request failed: " ++ err)
  | .ok auth0Token =>
      let requestBody : ConnectRequestBody :=
        { connection := connection
          redirect_uri := completeRedirectUri
          state := linkState
          scopes := finalScopes (externalScopes.map String.toList) }
      match connectCall requestBody with
      | .ok auth_session connect_uri ticket =>
          let fullConnectUrl := connect_uri ++ "?ticket=" ++ ticket
          let sessions2 := cacheAuthSession sessions linkState oidcState auth_session auth0Token now
          .ok ({ success := true, connectUrl := some fullConnectUrl,
                 authSession := some auth_session, state := some linkState,
                 message := "Connected account flow initiated successfully" },
               sessions2)
      | .errResponse ed e =>
          .ok ({ success := false, connectUrl := none, authSession := none,
                 state := none,
                 message := jsOr ed (jsOr e "Failed to initiate connected account flow") },
               sessions)
      | .noResponse =>
          .ok ({ success := false, connectUrl := none, authSession := none,
                 state := none,
                 message := "Connected accounts request failed: No response received" },
               sessions)
      | .setupError msg =>
          .ok ({ success := false, connectUrl := none, authSession := none,
                 state := none,
                 message := "Connected accounts request failed: " ++ msg },
               sessions)

/-! ## Tenant configuration (lib/tenant_config.js, tenants.json) -/

/-- A tenant record from `tenants.json` (`vault_connection` may be
absent). -/
structure TenantConfig where
  id : String
  name : String
  backend_url : String
  issuer : String
  keys_endpoint : String
  vault_connection : Option String
  external_scopes : List String
  deriving DecidableEq

/-! ## routes/token.js — vault-enabled proxy forwarder

The `app.all('/:tenantId/*')` handler (third document of
`routes/token.js`): runs after the tenant and auth middleware, performs
the vault exchange when the tenant has a vault connection, and forwards
the request to `{backend_url}/{proxyPath}`. -/

/-- The inbound request as the proxy handler sees it (after the
middleware): method, lower-cased header lookup, body, parsed query,
and the wildcard path `req.params[0]`. -/
structure InboundRequest where
  method : String
  headers : String → Option String
  body : String
  query : Params
  proxyPath : String

/-- The headers object built for the backend request
(`routes/token.js` vault-enabled handler, lines 275–283): only
`Content-Type` and `Accept` (mirrored with defaults), plus
`Authorization` only when a vaulted token was obtained. -/
structure BackendHeaders where
  contentType : String
  accept : String
  authorization : Option String
  deriving DecidableEq

/-- The outbound axios request to the tenant backend. -/
structure BackendRequest where
  method : String
  url : String
  headers : BackendHeaders
  data : Option String
  params : Params
  timeout : Nat
  deriving DecidableEq

/-- Construction of the outbound backend request
(`routes/token.js` vault-enabled handler, lines 275–293). -/
def buildBackendRequest (tenant : TenantConfig) (vaultedToken : String)
    (req : InboundRequest) : BackendRequest :=
  { method := req.method
    url := tenant.backend_url ++ "/" ++ req.proxyPath
    headers :=
      { contentType := jsOr (req.headers "content-type") "application/json"
        accept := jsOr (req.headers "accept") "application/json"
        authorization :=
          if vaultedToken ≠ "" then some ("Bearer " ++ vaultedToken) else none }
    data := if req.method ∈ ["POST", "PUT", "PATCH"] then some req.body else none
    params := req.query
    timeout := 30000 }

/-- What the proxy handler does with a request, up to the backend call:
respond locally (`status`, json `{error, message}`, optional
`WWW-Authenticate` header), forward a built backend request, or crash
with an unhandled rejection (the vault call sits outside the
handler's `try`). -/
inductive ProxyOutcome
  | respond (status : Nat) (error : String) (message : String)
      (wwwAuthenticate : Option String)
  | forward (request : BackendRequest)
  | crash
  deriving DecidableEq

/-- The vault-enabled `app.all('/:tenantId/*')` handler of
`routes/token.js` (lines 237–293 of its third document), with the vault
exchange's own inputs (`auth0TokenResult`, `vaultCall`) passed through.
None of the local `respond` branches sets a `WWW-Authenticate` header
(only the auth middleware does, on its own failures). -/
def proxyHandler (tenant : TenantConfig) (req : InboundRequest)
    (auth0TokenResult : Except String (Option String))
    (vaultCall : String → AxiosOutcome) : ProxyOutcome :=
  if jsTruthy tenant.vault_connection then
    match exchangeOktaAccessToken auth0TokenResult vaultCall with
    | .error _ => .crash
    | .ok none => .crash
    | .ok (some r) =>
        if r.success then
          .forward (buildBackendRequest tenant (r.accessToken.getD "") req)
        else if r.needsLinking then
          .respond 401 "Account Linking Required"
            "A connected account linking is required to obtain tokens for the backend service. Please re-log in."
            none
        else
          .respond 403 "Token Request Failed" "Unable to obtain proper tokens." none
  else
    .forward (buildBackendRequest tenant "" req)

/-- The auth middleware's rejection response
(`middleware` source, lines 24–33): unlike the proxy handler's own
responses it does set a `WWW-Authenticate` header. -/
def authMiddlewareReject (statusCode : Nat) (message : String)
    (resourceMetadataUrl : String) : ProxyOutcome :=
  .respond statusCode (if statusCode = 401 then "Unauthorized" else "Forbidden")
    message
    (some ("Bearer error=\x22invalid_or_misssing_jwt\x22, error_description=\x22" ++
      message ++ "\x22, resource_metadata=\x22" ++ resourceMetadataUrl ++ "\x22"))

/-! ## JWKS key cache (jwt authorizer source, getSigningKey) -/

/-- A JWKS entry: the `kid` plus the remaining key material (left abstract). -/
structure Jwk where
  kid : String
  material : String
  deriving DecidableEq

/-- A cached signing key with its fetch timestamp. -/
structure CachedKey where
  key : Jwk
  timestamp : Nat
  deriving DecidableEq

/-- Outcome of the axios GET of the JWKS document. -/
inductive JwksFetch
  | ok (keys : List Jwk)
  | unreachable
  deriving DecidableEq

/-- The `KEY_CACHE_TTL` (1 hour in milliseconds). -/
def KEY_CACHE_TTL : Nat := 3600000

/-- The fetch-and-select path of `getSigningKey`: on any error — the
document being unreachable, or no unique entry matching the `kid` —
the `catch` block rethrows one and the same generic error. -/
def getSigningKeyFetch (keyCache : JsMap CachedKey) (fetch : JwksFetch)
    (cacheKey kid : String) (now : Nat) :
    Except String Jwk × JsMap CachedKey :=
  match fetch with
  | .unreachable =>
      (.error "Error retrieving signing keys from authorization server", keyCache)
  | .ok keys =>
      match keys.filter (fun k => k.kid = kid) with
      | [k] => (.ok k, jsMapSet keyCache cacheKey { key := k, timestamp := now })
      | _ =>
          -- `throw new Error('Unable to locate signing key...')` is raised
          -- inside the try, so the catch rethrows the same generic error
          (.error "Error retrieving signing keys from authorization server", keyCache)

/-- The `getSigningKey(keysUrl, kid)` of the jwt authorizer source
(lines 17–44): cache hit iff a cached entry exists and
`Date.now() - cached.timestamp < KEY_CACHE_TTL`; otherwise fetch. -/
def getSigningKey (keyCache : JsMap CachedKey) (fetch : JwksFetch)
    (keysUrl kid : String) (now : Nat) :
    Except String Jwk × JsMap CachedKey :=
  match jsMapGet keyCache (keysUrl ++ ":" ++ kid) with
  | some cached =>
      if now - cached.timestamp < KEY_CACHE_TTL then
        (.ok cached.key, keyCache)
      else
        getSigningKeyFetch keyCache fetch (keysUrl ++ ":" ++ kid) kid now
  | none => getSigningKeyFetch keyCache fetch (keysUrl ++ ":" ++ kid) kid now

/-! ## Flow orchestrator handlers (outbound-request-cache generation)

`routes/authorize.js`, the `GET /callback` handler using
`lib/outbound_request_cache.js`, and
`routes/connected_accounts_callback.js` — the mutually consistent set of
handlers sharing the OIDC-outbound store.  Random values
(`crypto.randomBytes(32).toString('base64url')`) and every outbound
HTTP call are explicit parameters. -/

/-- The environment variables the flow handlers read. -/
structure Env where
  PROXY_BASE_URL : String
  OKTA_DOMAIN : String
  VSCODE_CLIENT : String
  AUTH0_DOMAIN : String
  deriving DecidableEq

/-- A response of a browser-flow handler.  The redirect to the upstream
IdP keeps its query structured (`URLSearchParams.toString()`
percent-encodes; nothing here depends on the encoding), while the final
redirect back to the client is the literal template-string
concatenation from the source. -/
inductive FlowResponse
  | redirect (url : String)
  | redirectAuthorize (endpoint : String) (ps : Params)
  | jsonError (status : Nat) (error : String) (message : String)
  deriving DecidableEq

/-- The `GET /authorize/:tenantId` of `routes/authorize.js`: resolve the
tenant, capture the inbound query, generate fresh outbound
state/nonce, store the outbound request, 302 to the IdP. -/
def authorizeHandler (env : Env) (getTenant : String → Option TenantConfig)
    (tenantId : String) (query : Params)
    (outboundState outboundNonce : String)
    (outbound : JsMap OutboundCacheEntry) (now : Nat) :
    FlowResponse × JsMap OutboundCacheEntry :=
  match getTenant tenantId with
  | none =>
      (.jsonError 404 "Not Found" ("Tenant " ++ tenantId ++ " not found."),
        outbound)
  | some _tenant =>
      let inboundAuthParameters := query
      let inboundState := paramsGet inboundAuthParameters "state"
      let authorizeEndpoint := env.OKTA_DOMAIN ++ "/oauth2/v1/authorize"
      let proxyQueryParams : Params :=
        [("client_id", env.VSCODE_CLIENT),
         ("redirect_uri", env.PROXY_BASE_URL ++ "/callback"),
         ("response_type", "code"),
         ("scope", "openid"),
         ("state", outboundState),
         ("nonce", outboundNonce)]
      let outbound2 := cacheOutboundRequest outbound outboundState
        proxyQueryParams inboundState inboundAuthParameters none tenantId now
      (.redirectAuthorize authorizeEndpoint proxyQueryParams, outbound2)

/-- A thrown JavaScript error as the callback's `catch` block inspects
it: an axios error with a response, an axios error with no response,
or a plain `Error`. -/
inductive JsError
  | response (status : Nat) (error : Option String)
      (error_description : Option String)
  | request
  | plain (message : String)
  deriving DecidableEq

/-- The `catch` block of the `GET /callback` handler: clear the
outbound entry, then respond according to the error shape. -/
def callbackCatch (state : String) (e : JsError)
    (outbound : JsMap OutboundCacheEntry) :
    FlowResponse × JsMap OutboundCacheEntry :=
  let outbound2 := clearCachedOutboundRequest outbound state
  match e with
  | .response status err desc =>
      (.jsonError status (jsOr err "token_exchange_error")
        (jsOr desc "Failed to exchange authorization code for tokens."),
        outbound2)
  | .request =>
      (.jsonError 502 "bad_gateway"
        "No response received from the authorization server during token exchange.",
        outbound2)
  | .plain msg =>
      (.jsonError 500 "server_error"
        ("Failed to exchange authorization code: " ++ msg), outbound2)

/-- The `GET /callback` (the handler using the outbound request cache):
validate `error`/`state`/`code`, load the outbound entry, run the
IdP exchange chain (each outbound call an `Except JsError` parameter),
then the vault exchange.  Success mints a return code and redirects to
`{originalParameters.redirect_uri}?code={newAuthzCode}&state={originalState}`;
needs-linking begins the connected-accounts flow and updates the
outbound entry in place with the staged agent token. -/
def callbackHandler (env : Env) (getTenant : String → Option TenantConfig)
    (query : Params)
    (idTokenResult : Except JsError (Option String))
    (idJagResult : Except JsError (Option String))
    (agentTokenResult : Except JsError (Option String))
    (vaultAuth0TokenResult : Except String (Option String))
    (vaultCall : String → AxiosOutcome)
    (linkAuth0TokenResult : Except String String)
    (linkState : String)
    (connectCall : ConnectRequestBody → ConnectOutcome)
    (newAuthzCode : String)
    (outbound : JsMap OutboundCacheEntry) (sessions : JsMap SessionCacheEntry)
    (returns : JsMap ReturnCacheEntry) (now : Nat) :
    FlowResponse × JsMap OutboundCacheEntry × JsMap SessionCacheEntry ×
      JsMap ReturnCacheEntry :=
  let state := paramsGet query "state"
  let code := paramsGet query "code"
  let error := paramsGet query "error"
  let error_description := paramsGet query "error_description"
  if jsTruthy error then
    (.jsonError 400 (error.getD "")
      (jsOr error_description "Authorization failed at the identity provider."),
      outbound, sessions, returns)
  else if ¬ jsTruthy state then
    (.jsonError 400 "invalid_request" "The state parameter is required.",
      outbound, sessions, returns)
  else if ¬ jsTruthy code then
    (.jsonError 400 "invalid_request" "The code parameter is required.",
      outbound, sessions, returns)
  else
    let stateStr := state.getD ""
    let looked := getCachedOutboundRequest outbound stateStr now
    match looked.1 with
    | none =>
        (.jsonError 400 "invalid_state"
          "The state parameter is invalid or has expired. Please restart the authorization flow.",
          looked.2, sessions, returns)
    | some cachedRequest =>
        let tenant := getTenant cachedRequest.tenantId
        match idTokenResult with
        | .error e =>
            let (resp, ob) := callbackCatch stateStr e looked.2
            (resp, ob, sessions, returns)
        | .ok _idToken =>
        match idJagResult with
        | .error e =>
            let (resp, ob) := callbackCatch stateStr e looked.2
            (resp, ob, sessions, returns)
        | .ok _idJag =>
        match agentTokenResult with
        | .error e =>
            let (resp, ob) := callbackCatch stateStr e looked.2
            (resp, ob, sessions, returns)
        | .ok agentAccessToken =>
        match tenant with
        | none =>
            -- `tenant.vault_connection` on a null tenant throws a TypeError
            let (resp, ob) :=
              callbackCatch stateStr (.plain "Cannot read properties of null") looked.2
            (resp, ob, sessions, returns)
        | some t =>
        match exchangeOktaAccessToken vaultAuth0TokenResult vaultCall with
        | .error msg =>
            let (resp, ob) := callbackCatch stateStr (.plain msg) looked.2
            (resp, ob, sessions, returns)
        | .ok none =>
            -- `vaultedTokenResponse.success` on null throws a TypeError
            let (resp, ob) :=
              callbackCatch stateStr (.plain "Cannot read properties of null") looked.2
            (resp, ob, sessions, returns)
        | .ok (some vaultedTokenResponse) =>
            if vaultedTokenResponse.success then
              let outbound2 := clearCachedOutboundRequest looked.2 stateStr
              let returns2 := addToCache returns newAuthzCode agentAccessToken
                cachedRequest.originalState cachedRequest.tenantId
                cachedRequest.originalParameters now
              let finalRedirectUrl :=
                jsTemplate (paramsGet cachedRequest.originalParameters "redirect_uri") ++
                  "?code=" ++ newAuthzCode ++ "&state=" ++
                  jsTemplate cachedRequest.originalState
              (.redirect finalRedirectUrl, outbound2, sessions, returns2)
            else if vaultedTokenResponse.needsLinking then
              match beginConnectedAccountFlow linkAuth0TokenResult linkState
                  stateStr t.vault_connection
                  (env.PROXY_BASE_URL ++ "/connected_account_callback")
                  t.external_scopes connectCall sessions now with
              | .error msg =>
                  let (resp, ob) := callbackCatch stateStr (.plain msg) looked.2
                  (resp, ob, sessions, returns)
              | .ok (connectedAccountResponse, sessions2) =>
                  if connectedAccountResponse.success then
                    let outbound2 := cacheOutboundRequest looked.2 stateStr
                      cachedRequest.parameters cachedRequest.originalState
                      cachedRequest.originalParameters agentAccessToken
                      cachedRequest.tenantId now
                    (.redirect (jsTemplate connectedAccountResponse.connectUrl),
                      outbound2, sessions2, returns)
                  else
                    (.jsonError 403 "Token Request Failed"
                      "Unable to obtain proper tokens.",
                      looked.2, sessions2, returns)
            else
              (.jsonError 403 "Token Request Failed"
                "Unable to obtain proper tokens.",
                looked.2, sessions, returns)

/-- Outcome of the axios POST to `/me/v1/connected-accounts/complete`. -/
inductive CompleteOutcome
  | ok
  | errResponse (status : Nat) (error : Option String)
      (error_description : Option String)
  | noResponse
  | setupError (message : String)
  deriving DecidableEq

/-- The `GET /connected_account_callback` of
`routes/connected_accounts_callback.js`: validate parameters, read and
clear the link session, complete the link at the vault, then read and
clear the outbound entry by the session's `oidcState`, mint a return
code and redirect back to the client. -/
def connectedAccountCallbackHandler (query : Params)
    (completeOutcome : CompleteOutcome) (newAuthzCode : String)
    (sessions : JsMap SessionCacheEntry)
    (outbound : JsMap OutboundCacheEntry)
    (returns : JsMap ReturnCacheEntry) (now : Nat) :
    FlowResponse × JsMap SessionCacheEntry × JsMap OutboundCacheEntry ×
      JsMap ReturnCacheEntry :=
  let state := paramsGet query "state"
  let connect_code := paramsGet query "connect_code"
  if ¬ jsTruthy state then
    (.jsonError 400 "Missing Parameter" "The state parameter is required.",
      sessions, outbound, returns)
  else if ¬ jsTruthy connect_code then
    (.jsonError 400 "Missing Parameter" "The connect_code parameter is required.",
      sessions, outbound, returns)
  else
    let stateStr := state.getD ""
    let looked := getCachedAuthSession sessions stateStr now
    let sessions2 := clearCachedAuthSession looked.2 stateStr
    match looked.1 with
    | none =>
        (.jsonError 400 "Invalid or Expired State"
          "The state parameter is invalid or has expired. Please restart the connection flow.",
          sessions2, outbound, returns)
    | some cachedData =>
        match completeOutcome with
        | .errResponse status err desc =>
            (.jsonError status "Connected Accounts Error"
              (jsOr desc (jsOr err "Failed to complete the connected account flow.")),
              sessions2, outbound, returns)
        | .noResponse =>
            (.jsonError 502 "Bad Gateway"
              "No response received from Auth0 when completing the connected account flow.",
              sessions2, outbound, returns)
        | .setupError msg =>
            (.jsonError 500 "Internal Server Error"
              ("Failed to complete the connected account flow: " ++ msg),
              sessions2, outbound, returns)
        | .ok =>
            let oidcLooked := getCachedOutboundRequest outbound cachedData.oidcState now
            let outbound2 := clearCachedOutboundRequest oidcLooked.2 cachedData.oidcState
            match oidcLooked.1 with
            | none =>
                -- `oidcCachedData.accessToken` on null throws; the catch
                -- block turns it into a 500
                (.jsonError 500 "Internal Server Error"
                  "Failed to complete the connected account flow: Cannot read properties of null",
                  sessions2, outbound2, returns)
            | some oidcCachedData =>
                let returns2 := addToCache returns newAuthzCode
                  oidcCachedData.accessToken oidcCachedData.originalState
                  oidcCachedData.tenantId oidcCachedData.originalParameters now
                let finalRedirectUrl :=
                  jsTemplate (paramsGet oidcCachedData.originalParameters "redirect_uri") ++
                    "?code=" ++ newAuthzCode ++ "&state=" ++
                    jsTemplate oidcCachedData.originalState
                (.redirect finalRedirectUrl, sessions2, outbound2, returns2)

/-! ## Helper lemmas -/

theorem jsMapGet_set_self {α : Type} (m : JsMap α) (k : String) (v : α) :
    jsMapGet (jsMapSet m k v) k = some v := by
  simp [jsMapGet, jsMapSet]

theorem find?_filter_ne {α : Type} (m : List (String × α)) (k k' : String)
    (h : k' ≠ k) :
    List.find? (fun p => p.1 = k') (List.filter (fun p => p.1 ≠ k) m) =
      List.find? (fun p => p.1 = k') m := by
  induction m with
  | nil => rfl
  | cons p rest ih =>
      by_cases hp : p.1 = k
      · have hp' : ¬ p.1 = k' := by rw [hp]; exact fun e => h e.symm
        rw [List.filter_cons, if_neg (by simpa using hp), ih,
          List.find?_cons_of_neg _ (by simpa using hp')]
      · rw [List.filter_cons, if_pos (by simpa using hp)]
        by_cases hq : p.1 = k'
        · rw [List.find?_cons_of_pos _ (by simpa using hq),
            List.find?_cons_of_pos _ (by simpa using hq)]
        · rw [List.find?_cons_of_neg _ (by simpa using hq),
            List.find?_cons_of_neg _ (by simpa using hq), ih]

theorem jsMapGet_del_self {α : Type} (m : JsMap α) (k : String) :
    jsMapGet (jsMapDel m k) k = none := by
  unfold jsMapGet jsMapDel
  rw [List.find?_eq_none.mpr]
  · rfl
  · intro p hp
    have := List.of_mem_filter hp
    simp only [decide_eq_true_eq] at this ⊢
    simpa using this

theorem jsMapGet_set_ne {α : Type} (m : JsMap α) (k k' : String) (v : α)
    (h : k' ≠ k) : jsMapGet (jsMapSet m k v) k' = jsMapGet m k' := by
  unfold jsMapGet jsMapSet
  rw [List.find?_cons_of_neg _ (by simpa using fun e => h (Eq.symm e)),
    find?_filter_ne m k k' h]

/-- After the preliminary checks pass, the handler's resulting cache state
is the looked-up cache with the presented code unconditionally deleted
(`getCacheItem` then `clearCacheItem`, before any later validation). -/
theorem tokenHandler_snd (b : TokenRequestBody) (m : JsMap ReturnCacheEntry)
    (now : Nat) (h : prelimOK b) :
    (tokenHandler b m now).2 =
      clearCacheItem (getCacheItem m (b.code.getD "") now).2 (b.code.getD "") := by
  obtain ⟨h1, h2, h3, h4, h5⟩ := h
  unfold tokenHandler
  rw [if_neg (by simp [h1]), if_neg (not_not_intro h2), if_neg (not_not_intro h3),
    if_neg (not_not_intro h4), if_neg (not_not_intro h5)]
  cases hopt : (getCacheItem m (b.code.getD "") now).1 with
  | none => simp [hopt]
  | some e =>
      simp only [hopt]
      by_cases hch : jsTruthy (paramsGet e.originalParameters "code_challenge")
      · by_cases hcl : jsTruthy (paramsGet e.originalParameters "client_id") ∧
            paramsGet e.originalParameters "client_id" ≠ b.client_id
        · rw [if_neg (not_not_intro hch), if_pos hcl]
        · rw [if_neg (not_not_intro hch), if_neg hcl]
      · rw [if_pos hch]

/-- After a request passing the preliminary checks presents code `c`,
`c` is gone from the cache map. -/
theorem tokenHandler_code_gone (b : TokenRequestBody)
    (m : JsMap ReturnCacheEntry) (now : Nat) (c : String)
    (h : prelimOK b) (hc : b.code = some c) :
    jsMapGet (tokenHandler b m now).2 c = none := by
  rw [tokenHandler_snd b m now h, hc]
  exact jsMapGet_del_self _ c

/-- A request passing the preliminary checks whose code is absent from the
cache map is rejected with 400 `invalid_grant`. -/
theorem tokenHandler_gone_invalid_grant (b : TokenRequestBody)
    (m : JsMap ReturnCacheEntry) (now : Nat) (c : String)
    (h : prelimOK b) (hc : b.code = some c) (hm : jsMapGet m c = none) :
    (tokenHandler b m now).1 =
      .err 400 "invalid_grant"
        "The authorization code is invalid, expired, or has already been used." := by
  obtain ⟨h1, h2, h3, h4, h5⟩ := h
  unfold tokenHandler
  rw [if_neg (by simp [h1]), if_neg (not_not_intro h2), if_neg (not_not_intro h3),
    if_neg (not_not_intro h4), if_neg (not_not_intro h5)]
  have hget : getCacheItem m (b.code.getD "") now = (none, m) := by
    unfold getCacheItem
    rw [hc]
    simp [hm]
  simp [hget]

/-- The `getCacheItem` on a key absent from the map returns `none`. -/
theorem getCacheItem_of_absent (m : JsMap ReturnCacheEntry) (c : String)
    (now : Nat) (h : jsMapGet m c = none) : (getCacheItem m c now).1 = none := by
  unfold getCacheItem
  rw [h]

/-!  ## Claim theorems -/

/-- C1: the spec requires POST /token to verify
`base64url(sha256(code_verifier)) == code_challenge` for S256 flows and
reject mismatches with 400 `invalid_grant`, but the `validatePKCE` call
is commented out in `routes/token.js` (lines 125–132): the handler
returns 200 with the staged access token for EVERY `code_verifier`.
Here two different verifiers are both accepted against the same
original `code_challenge`; since at most one of two distinct verifiers
can hash to a given challenge, the handler provably accepts a PKCE
mismatch. -/
theorem C1_pkce_check_bypassed :
    (tokenHandler
      { grant_type := some "authorization_code", code := some "RC0",
        client_id := some "CLIENT1",
        code_verifier := some "wrong-verifier-one",
        redirect_uri := some "http://client.example/cb" }
      [("RC0",
        { originalState := some "S1", tenantId := "github",
          originalParameters :=
            [("state", "S1"), ("client_id", "CLIENT1"),
             ("redirect_uri", "http://client.example/cb"),
             ("code_challenge", "E9Melhoa2OwvFrEMTJguCHaoeK1t8URWbuGJSstw-cM"),
             ("code_challenge_method", "S256")],
          accessToken := some "AGENT-TOKEN", createdAt := 0 })]
      1000).1 = TokenResponse.ok 200 (some "AGENT-TOKEN")
  ∧ (tokenHandler
      { grant_type := some "authorization_code", code := some "RC0",
        client_id := some "CLIENT1",
        code_verifier := some "wrong-verifier-two",
        redirect_uri := some "http://client.example/cb" }
      [("RC0",
        { originalState := some "S1", tenantId := "github",
          originalParameters :=
            [("state", "S1"), ("client_id", "CLIENT1"),
             ("redirect_uri", "http://client.example/cb"),
             ("code_challenge", "E9Melhoa2OwvFrEMTJguCHaoeK1t8URWbuGJSstw-cM"),
             ("code_challenge_method", "S256")],
          accessToken := some "AGENT-TOKEN", createdAt := 0 })]
      1000).1 = TokenResponse.ok 200 (some "AGENT-TOKEN") := by
  constructor <;> rfl

/-- C2 counterexample: a POST /token request that presents a live code
but fails the grant_type check is rejected BEFORE the cache is touched,
so after that presenting request the code is still retrievable — the
claim's "after the first POST /token request that presents the code
(whatever that request's outcome), every later lookup of that code
returns absent" is false as stated. -/
theorem C2_counterexample :
    (tokenHandler
      { grant_type := some "client_credentials", code := some "RC1",
        client_id := some "CLIENT1", code_verifier := some "v1",
        redirect_uri := some "http://client.example/cb" }
      [("RC1",
        { originalState := some "S1", tenantId := "github",
          originalParameters := [("client_id", "CLIENT1"), ("code_challenge", "X")],
          accessToken := some "AGENT-TOKEN", createdAt := 0 })]
      1000).1 =
      TokenResponse.err 400 "unsupported_grant_type"
        "Only authorization_code grant type is supported."
  ∧ (getCacheItem
      (tokenHandler
        { grant_type := some "client_credentials", code := some "RC1",
          client_id := some "CLIENT1", code_verifier := some "v1",
          redirect_uri := some "http://client.example/cb" }
        [("RC1",
          { originalState := some "S1", tenantId := "github",
            originalParameters := [("client_id", "CLIENT1"), ("code_challenge", "X")],
            accessToken := some "AGENT-TOKEN", createdAt := 0 })]
        1000).2
      "RC1" 1000).1 =
      some
        { originalState := some "S1", tenantId := "github",
          originalParameters := [("client_id", "CLIENT1"), ("code_challenge", "X")],
          accessToken := some "AGENT-TOKEN", createdAt := 0 } := by
  constructor <;> rfl

/-- C2 (amended): once a POST /token request that presents the code and
passes the preliminary parameter checks has run, the code is gone from
the return-code cache, every later lookup returns absent, and every
later well-formed POST /token presenting it is rejected with 400
`invalid_grant` — so at most one request ever obtains the staged
token with a given code. -/
theorem C2_return_code_single_use (m : JsMap ReturnCacheEntry) (now : Nat)
    (b : TokenRequestBody) (c : String)
    (h : prelimOK b) (hc : b.code = some c) :
    jsMapGet (tokenHandler b m now).2 c = none ∧
    (∀ now2 : Nat, (getCacheItem (tokenHandler b m now).2 c now2).1 = none) ∧
    ∀ (b2 : TokenRequestBody) (now2 : Nat), prelimOK b2 → b2.code = some c →
      (tokenHandler b2 (tokenHandler b m now).2 now2).1 =
        TokenResponse.err 400 "invalid_grant"
          "The authorization code is invalid, expired, or has already been used." := by
  have hgone := tokenHandler_code_gone b m now c h hc
  refine ⟨hgone, ?_, ?_⟩
  · intro now2
    exact getCacheItem_of_absent _ c now2 hgone
  · intro b2 now2 h2 hc2
    exact tokenHandler_gone_invalid_grant b2 _ now2 c h2 hc2 hgone

/-- Witness for C2's amended theorem at concrete inputs. -/
theorem C2_return_code_single_use_witness :
    jsMapGet
      (tokenHandler
        { grant_type := some "authorization_code", code := some "RC2",
          client_id := some "CLIENT1", code_verifier := some "v1",
          redirect_uri := some "http://client.example/cb" }
        [("RC2",
          { originalState := some "S1", tenantId := "github",
            originalParameters := [("client_id", "CLIENT1"), ("code_challenge", "X")],
            accessToken := some "AGENT-TOKEN", createdAt := 0 })]
        1000).2
      "RC2" = none
  ∧ (tokenHandler
      { grant_type := some "authorization_code", code := some "RC2",
        client_id := some "CLIENT1", code_verifier := some "v1",
        redirect_uri := some "http://client.example/cb" }
      (tokenHandler
        { grant_type := some "authorization_code", code := some "RC2",
          client_id := some "CLIENT1", code_verifier := some "v1",
          redirect_uri := some "http://client.example/cb" }
        [("RC2",
          { originalState := some "S1", tenantId := "github",
            originalParameters := [("client_id", "CLIENT1"), ("code_challenge", "X")],
            accessToken := some "AGENT-TOKEN", createdAt := 0 })]
        1000).2
      2000).1 =
      TokenResponse.err 400 "invalid_grant"
        "The authorization code is invalid, expired, or has already been used." := by
  refine ⟨(C2_return_code_single_use _ 1000 _ "RC2" (by decide) rfl).1, ?_⟩
  exact (C2_return_code_single_use _ 1000 _ "RC2" (by decide) rfl).2.2 _ 2000
    (by decide) rfl

/-- C10: the return code is deleted before the later validations: a
request that passes the preliminary checks and resolves to a live
cached entry but then fails a subsequent check (no `code_challenge` in
the original parameters, or a differing original `client_id`) gets a
400, the code is nonetheless consumed, and any well-formed retry with
the same code is rejected with 400 `invalid_grant`. -/
theorem C10_code_consumed_before_later_checks (m : JsMap ReturnCacheEntry)
    (now : Nat) (b : TokenRequestBody) (c : String) (e : ReturnCacheEntry)
    (h : prelimOK b) (hc : b.code = some c)
    (hlive : (getCacheItem m c now).1 = some e)
    (hfail : ¬ jsTruthy (paramsGet e.originalParameters "code_challenge")
      ∨ (jsTruthy (paramsGet e.originalParameters "client_id")
          ∧ paramsGet e.originalParameters "client_id" ≠ b.client_id)) :
    (tokenHandler b m now).1.statusOf = 400 ∧
    jsMapGet (tokenHandler b m now).2 c = none ∧
    ∀ (b2 : TokenRequestBody) (now2 : Nat), prelimOK b2 → b2.code = some c →
      (tokenHandler b2 (tokenHandler b m now).2 now2).1 =
        TokenResponse.err 400 "invalid_grant"
          "The authorization code is invalid, expired, or has already been used." := by
  have hgone := tokenHandler_code_gone b m now c h hc
  refine ⟨?_, hgone, ?_⟩
  · obtain ⟨h1, h2, h3, h4, h5⟩ := h
    unfold tokenHandler
    rw [if_neg (by simp [h1]), if_neg (not_not_intro h2),
      if_neg (not_not_intro h3), if_neg (not_not_intro h4),
      if_neg (not_not_intro h5)]
    simp only [hc, Option.getD_some, hlive]
    by_cases hch : jsTruthy (paramsGet e.originalParameters "code_challenge")
    · have hcl : jsTruthy (paramsGet e.originalParameters "client_id") ∧
          paramsGet e.originalParameters "client_id" ≠ b.client_id := by
        rcases hfail with hl | hr
        · exact absurd hch hl
        · exact hr
      rw [if_neg (not_not_intro hch), if_pos hcl]
      rfl
    · rw [if_pos hch]
      rfl
  · intro b2 now2 h2 hc2
    exact tokenHandler_gone_invalid_grant b2 _ now2 c h2 hc2 hgone

/-- Witness for C10 at concrete inputs: a client_id-mismatch request
consumes the live code, gets a 400, and the corrected retry is rejected
with `invalid_grant`. -/
theorem C10_witness :
    (tokenHandler
      { grant_type := some "authorization_code", code := some "RC3",
        client_id := some "OTHER-CLIENT", code_verifier := some "v1",
        redirect_uri := some "http://client.example/cb" }
      [("RC3",
        { originalState := some "S1", tenantId := "github",
          originalParameters := [("client_id", "CLIENT1"), ("code_challenge", "X")],
          accessToken := some "AGENT-TOKEN", createdAt := 0 })]
      1000).1.statusOf = 400
  ∧ (tokenHandler
      { grant_type := some "authorization_code", code := some "RC3",
        client_id := some "CLIENT1", code_verifier := some "v1",
        redirect_uri := some "http://client.example/cb" }
      (tokenHandler
        { grant_type := some "authorization_code", code := some "RC3",
          client_id := some "OTHER-CLIENT", code_verifier := some "v1",
          redirect_uri := some "http://client.example/cb" }
        [("RC3",
          { originalState := some "S1", tenantId := "github",
            originalParameters := [("client_id", "CLIENT1"), ("code_challenge", "X")],
            accessToken := some "AGENT-TOKEN", createdAt := 0 })]
        1000).2
      2000).1 =
      TokenResponse.err 400 "invalid_grant"
        "The authorization code is invalid, expired, or has already been used." := by
  have hmain := C10_code_consumed_before_later_checks
    [("RC3",
      { originalState := some "S1", tenantId := "github",
        originalParameters := [("client_id", "CLIENT1"), ("code_challenge", "X")],
        accessToken := some "AGENT-TOKEN", createdAt := 0 })]
    1000
    { grant_type := some "authorization_code", code := some "RC3",
      client_id := some "OTHER-CLIENT", code_verifier := some "v1",
      redirect_uri := some "http://client.example/cb" }
    "RC3"
    { originalState := some "S1", tenantId := "github",
      originalParameters := [("client_id", "CLIENT1"), ("code_challenge", "X")],
      accessToken := some "AGENT-TOKEN", createdAt := 0 }
    (by decide) rfl rfl (Or.inr (by decide))
  exact ⟨hmain.1, hmain.2.2 _ 2000 (by decide) rfl⟩

/-- C5: every correlation-store entry — OIDC-outbound (both the
`oidc_cache` and `outbound_request_cache` modules), link-session, and
return-code families — is returned by a get performed at or before
900 seconds (900000 ms) after its creation, and a get performed
strictly after 900 seconds returns absent and removes the entry from
the map (lazy eviction). -/
theorem C5_correlation_ttl (now : Nat) :
    (∀ (m : JsMap OidcCacheEntry) (k : String) (e : OidcCacheEntry),
      jsMapGet m k = some e →
        (now - e.createdAt ≤ 900000 → (getOidcRequest m k now).1 = some e) ∧
        (900000 < now - e.createdAt →
          (getOidcRequest m k now).1 = none ∧
          jsMapGet (getOidcRequest m k now).2 k = none)) ∧
    (∀ (m : JsMap OutboundCacheEntry) (k : String) (e : OutboundCacheEntry),
      jsMapGet m k = some e →
        (now - e.createdAt ≤ 900000 →
          (getCachedOutboundRequest m k now).1 = some e) ∧
        (900000 < now - e.createdAt →
          (getCachedOutboundRequest m k now).1 = none ∧
          jsMapGet (getCachedOutboundRequest m k now).2 k = none)) ∧
    (∀ (m : JsMap SessionCacheEntry) (k : String) (e : SessionCacheEntry),
      jsMapGet m k = some e →
        (now - e.createdAt ≤ 900000 →
          (getCachedAuthSession m k now).1 = some e) ∧
        (900000 < now - e.createdAt →
          (getCachedAuthSession m k now).1 = none ∧
          jsMapGet (getCachedAuthSession m k now).2 k = none)) ∧
    (∀ (m : JsMap ReturnCacheEntry) (k : String) (e : ReturnCacheEntry),
      jsMapGet m k = some e →
        (now - e.createdAt ≤ 900000 → (getCacheItem m k now).1 = some e) ∧
        (900000 < now - e.createdAt →
          (getCacheItem m k now).1 = none ∧
          jsMapGet (getCacheItem m k now).2 k = none)) := by
  refine ⟨?_, ?_, ?_, ?_⟩
  · intro m k e hme
    constructor
    · intro hle
      have hcond : ¬ (now - e.createdAt > CACHE_TTL_MS) := by
        simp only [CACHE_TTL_MS]; omega
      simp [getOidcRequest, hme, if_neg hcond]
    · intro hgt
      have hcond : now - e.createdAt > CACHE_TTL_MS := by
        simp only [CACHE_TTL_MS]; omega
      constructor
      · simp [getOidcRequest, hme, if_pos hcond]
      · simp only [getOidcRequest, hme, if_pos hcond]
        exact jsMapGet_del_self m k
  · intro m k e hme
    constructor
    · intro hle
      have hcond : ¬ (now - e.createdAt > CACHE_TTL_MS) := by
        simp only [CACHE_TTL_MS]; omega
      simp [getCachedOutboundRequest, hme, if_neg hcond]
    · intro hgt
      have hcond : now - e.createdAt > CACHE_TTL_MS := by
        simp only [CACHE_TTL_MS]; omega
      constructor
      · simp [getCachedOutboundRequest, hme, if_pos hcond]
      · simp only [getCachedOutboundRequest, hme, if_pos hcond]
        exact jsMapGet_del_self m k
  · intro m k e hme
    constructor
    · intro hle
      have hcond : ¬ (now - e.createdAt > CACHE_TTL_MS) := by
        simp only [CACHE_TTL_MS]; omega
      simp [getCachedAuthSession, hme, if_neg hcond]
    · intro hgt
      have hcond : now - e.createdAt > CACHE_TTL_MS := by
        simp only [CACHE_TTL_MS]; omega
      constructor
      · simp [getCachedAuthSession, hme, if_pos hcond]
      · simp only [getCachedAuthSession, hme, if_pos hcond]
        exact jsMapGet_del_self m k
  · intro m k e hme
    constructor
    · intro hle
      have hcond : ¬ (now - e.createdAt > CACHE_TTL_MS) := by
        simp only [CACHE_TTL_MS]; omega
      simp [getCacheItem, hme, if_neg hcond]
    · intro hgt
      have hcond : now - e.createdAt > CACHE_TTL_MS := by
        simp only [CACHE_TTL_MS]; omega
      constructor
      · simp [getCacheItem, hme, if_pos hcond]
      · simp only [getCacheItem, hme, if_pos hcond]
        exact jsMapGet_del_self m k

/-- Witness for C5 at concrete inputs: an entry created at time 0 is
returned at exactly 900 s and gone (with the entry evicted) at
900 s + 1 ms. -/
theorem C5_correlation_ttl_witness :
    (getOidcRequest
      [("k1",
        { tenantId := "github", parameters := [], originalState := some "S1",
          originalParameters := [], accessToken := none,
          accessTokenScope := none, accessTokenExpiresIn := none,
          createdAt := 0 })]
      "k1" 900000).1 =
      some
        { tenantId := "github", parameters := [], originalState := some "S1",
          originalParameters := [], accessToken := none,
          accessTokenScope := none, accessTokenExpiresIn := none,
          createdAt := 0 }
  ∧ (getCacheItem
      [("k2",
        { originalState := some "S1", tenantId := "github",
          originalParameters := [], accessToken := some "T",
          createdAt := 0 })]
      "k2" 900001).1 = none
  ∧ jsMapGet
      (getCacheItem
        [("k2",
          { originalState := some "S1", tenantId := "github",
            originalParameters := [], accessToken := some "T",
            createdAt := 0 })]
        "k2" 900001).2 "k2" = none := by
  have h1 := (C5_correlation_ttl 900000).1
    [("k1",
      { tenantId := "github", parameters := [], originalState := some "S1",
        originalParameters := [], accessToken := none,
        accessTokenScope := none, accessTokenExpiresIn := none,
        createdAt := 0 })]
    "k1"
    { tenantId := "github", parameters := [], originalState := some "S1",
      originalParameters := [], accessToken := none,
      accessTokenScope := none, accessTokenExpiresIn := none,
      createdAt := 0 }
    rfl
  have h2 := (C5_correlation_ttl 900001).2.2.2
    [("k2",
      { originalState := some "S1", tenantId := "github",
        originalParameters := [], accessToken := some "T",
        createdAt := 0 })]
    "k2"
    { originalState := some "S1", tenantId := "github",
      originalParameters := [], accessToken := some "T",
      createdAt := 0 }
    rfl
  exact ⟨h1.1 (by decide), (h2.2 (by decide)).1, (h2.2 (by decide)).2⟩

/-- C4: the vault exchange maps an upstream 401 whose error code is
`federated_connection_refresh_token_not_found` — and only that
response — to the needs-linking outcome; every other error response, a
request with no response, and a local setup failure each yield a
non-needs-linking failure; a successful response yields the downstream
access token.  The final conjunct ties the mapping to
`exchangeOktaAccessToken` itself. -/
theorem C4_needs_linking_mapping :
    (∀ (o : AxiosOutcome),
      ((exchangeVaultOutcome o).needsLinking = true ↔
        o = AxiosOutcome.errResponse 401
          (some "federated_connection_refresh_token_not_found")) ∧
      ((exchangeVaultOutcome o).success = true ↔ ∃ t, o = AxiosOutcome.ok t) ∧
      (∀ t, o = AxiosOutcome.ok t → (exchangeVaultOutcome o).accessToken = t)) ∧
    ∀ (tok : Option String) (vaultCall : String → AxiosOutcome),
      jsTruthy tok →
      exchangeOktaAccessToken (Except.ok tok) vaultCall =
        Except.ok (some (exchangeVaultOutcome (vaultCall (tok.getD "")))) := by
  constructor
  · intro o
    cases o with
    | ok t => simp [exchangeVaultOutcome]
    | errResponse s err =>
        by_cases h : s = 401 ∧ err = some "federated_connection_refresh_token_not_found"
        · obtain ⟨hs, he⟩ := h
          subst hs; subst he
          simp [exchangeVaultOutcome]
        · have hred : exchangeVaultOutcome (AxiosOutcome.errResponse s err) =
              if s = 401 ∧ err = some "federated_connection_refresh_token_not_found" then
                { success := false, needsLinking := true, accessToken := none,
                  message := some "No credentials found in the vault." }
              else
                { success := false, needsLinking := false, accessToken := none,
                  message := err } := rfl
          refine ⟨?_, ?_, by simp⟩
          · rw [hred, if_neg h]
            constructor
            · intro hfalse; exact absurd hfalse (by simp)
            · intro heq
              injection heq with hs he
              exact absurd ⟨hs, he⟩ h
          · rw [hred, if_neg h]
            simp
    | noResponse => simp [exchangeVaultOutcome]
    | setupError m => simp [exchangeVaultOutcome]
  · intro tok vaultCall htok
    have hred : exchangeOktaAccessToken (Except.ok tok) vaultCall =
        if ¬ jsTruthy tok then Except.ok none
        else Except.ok (some (exchangeVaultOutcome (vaultCall (tok.getD "")))) := rfl
    rw [hred, if_neg (not_not_intro htok)]

/-- Witness for C4 at a concrete input: with a truthy internal token and
a vault call answering 401 `federated_connection_refresh_token_not_found`,
the exchange returns the mapped record and that record is the
needs-linking one. -/
theorem C4_needs_linking_mapping_witness :
    exchangeOktaAccessToken (Except.ok (some "TOK"))
      (fun _ => AxiosOutcome.errResponse 401
        (some "federated_connection_refresh_token_not_found")) =
      Except.ok (some (exchangeVaultOutcome (AxiosOutcome.errResponse 401
        (some "federated_connection_refresh_token_not_found"))))
  ∧ (exchangeVaultOutcome (AxiosOutcome.errResponse 401
      (some "federated_connection_refresh_token_not_found"))).needsLinking = true :=
  ⟨C4_needs_linking_mapping.2 (some "TOK") _ (by decide),
    (C4_needs_linking_mapping.1 _).1.mpr rfl⟩

/-- C3: the forwarded backend request carries only `Content-Type` and
`Accept` mirrored from the inbound request (with `application/json`
defaults), plus an `Authorization` header only from the vaulted token
(never from the inbound request); the body is forwarded exactly for
POST/PUT/PATCH; the query is forwarded verbatim; two inbound requests
agreeing on everything except their headers and agreeing on
`content-type` and `accept` (in particular: differing only in the
inbound `Authorization` or `Host` header) produce, for a fixed vault
result, identical outbound requests; and every request the proxy
handler forwards is exactly such a built request. -/
theorem C3_backend_request_isolation :
    (∀ (t : TenantConfig) (vtok : String) (req : InboundRequest),
      ((buildBackendRequest t vtok req).headers.authorization = none ∨
        (buildBackendRequest t vtok req).headers.authorization =
          some ("Bearer " ++ vtok)) ∧
      (buildBackendRequest t vtok req).headers.contentType =
        jsOr (req.headers "content-type") "application/json" ∧
      (buildBackendRequest t vtok req).headers.accept =
        jsOr (req.headers "accept") "application/json" ∧
      (buildBackendRequest t vtok req).data =
        (if req.method ∈ ["POST", "PUT", "PATCH"] then some req.body else none) ∧
      (buildBackendRequest t vtok req).params = req.query ∧
      (buildBackendRequest t vtok req).url =
        t.backend_url ++ "/" ++ req.proxyPath) ∧
    (∀ (t : TenantConfig) (vtok : String) (r1 r2 : InboundRequest),
      r1.method = r2.method → r1.body = r2.body → r1.query = r2.query →
      r1.proxyPath = r2.proxyPath →
      r1.headers "content-type" = r2.headers "content-type" →
      r1.headers "accept" = r2.headers "accept" →
      buildBackendRequest t vtok r1 = buildBackendRequest t vtok r2) ∧
    (∀ (t : TenantConfig) (req : InboundRequest)
        (a : Except String (Option String)) (vc : String → AxiosOutcome)
        (breq : BackendRequest),
      proxyHandler t req a vc = ProxyOutcome.forward breq →
      ∃ vtok, breq = buildBackendRequest t vtok req) := by
  refine ⟨?_, ?_, ?_⟩
  · intro t vtok req
    refine ⟨?_, rfl, rfl, rfl, rfl, rfl⟩
    unfold buildBackendRequest
    by_cases hv : vtok = ""
    · left; simp [hv]
    · right; simp [hv]
  · intro t vtok r1 r2 hm hb hq hp hct hacc
    unfold buildBackendRequest
    rw [hm, hb, hq, hp, hct, hacc]
  · intro t req a vc breq h
    unfold proxyHandler at h
    split at h
    · split at h
      · cases h
      · cases h
      · split at h
        · exact ⟨_, (ProxyOutcome.forward.inj h).symm⟩
        · split at h
          · cases h
          · cases h
    · exact ⟨"", (ProxyOutcome.forward.inj h).symm⟩

/-- Witness for C3 at concrete inputs: two inbound requests differing
only in their `authorization` and `host` headers produce the same
outbound request, and a forwarded request is a built request. -/
theorem C3_backend_request_isolation_witness :
    buildBackendRequest
      { id := "github", name := "GitHub", backend_url := "http://backend",
        issuer := "http://issuer", keys_endpoint := "http://jwks",
        vault_connection := some "github", external_scopes := ["repo"] }
      "DOWNSTREAM"
      { method := "POST",
        headers := fun k =>
          if k = "authorization" then some "Bearer SECRET-A"
          else if k = "host" then some "proxy.example"
          else if k = "content-type" then some "application/json" else none,
        body := "B", query := [("q", "1")], proxyPath := "mcp" } =
    buildBackendRequest
      { id := "github", name := "GitHub", backend_url := "http://backend",
        issuer := "http://issuer", keys_endpoint := "http://jwks",
        vault_connection := some "github", external_scopes := ["repo"] }
      "DOWNSTREAM"
      { method := "POST",
        headers := fun k =>
          if k = "authorization" then some "Bearer SECRET-B"
          else if k = "host" then some "other.example"
          else if k = "content-type" then some "application/json" else none,
        body := "B", query := [("q", "1")], proxyPath := "mcp" } :=
  C3_backend_request_isolation.2.1 _ "DOWNSTREAM" _ _ rfl rfl rfl rfl rfl rfl

/-- C7 counterexample: on needs-linking the vault-enabled proxy handler
responds 401 with error "Account Linking Required" and message "A
connected account linking is required to obtain tokens for the backend
service. Please re-log in." and does NOT set a `WWW-Authenticate`
header — the claimed body message "Account linking required" and the
claimed header are both absent. -/
theorem C7_counterexample :
    proxyHandler
      { id := "github", name := "GitHub", backend_url := "http://backend",
        issuer := "http://issuer", keys_endpoint := "http://jwks",
        vault_connection := some "github", external_scopes := ["repo"] }
      { method := "GET", headers := fun _ => none, body := "", query := [],
        proxyPath := "mcp" }
      (Except.ok (some "TOK"))
      (fun _ => AxiosOutcome.errResponse 401
        (some "federated_connection_refresh_token_not_found")) =
      ProxyOutcome.respond 401 "Account Linking Required"
        "A connected account linking is required to obtain tokens for the backend service. Please re-log in."
        none
  ∧ "A connected account linking is required to obtain tokens for the backend service. Please re-log in." ≠
      "Account linking required" := by
  exact ⟨rfl, by decide⟩

/-- C7 (amended): with a vault connection configured and the exchange
returning a failure record, needs-linking yields a 401 whose body is
`{error: "Account Linking Required", message: "A connected account
linking is required to obtain tokens for the backend service. Please
re-log in."}` with no `WWW-Authenticate` header, and any other failure
yields a 403 `{error: "Token Request Failed", message: "Unable to
obtain proper tokens."}`. -/
theorem C7_forwarder_failure_responses (t : TenantConfig)
    (req : InboundRequest) (a : Except String (Option String))
    (vc : String → AxiosOutcome) (r : VaultExchangeResult)
    (hv : jsTruthy t.vault_connection)
    (hres : exchangeOktaAccessToken a vc = Except.ok (some r))
    (hfail : r.success = false) :
    (r.needsLinking = true →
      proxyHandler t req a vc =
        ProxyOutcome.respond 401 "Account Linking Required"
          "A connected account linking is required to obtain tokens for the backend service. Please re-log in."
          none) ∧
    (r.needsLinking = false →
      proxyHandler t req a vc =
        ProxyOutcome.respond 403 "Token Request Failed"
          "Unable to obtain proper tokens." none) := by
  unfold proxyHandler
  rw [if_pos hv, hres]
  constructor <;> intro hnl <;> simp [hfail, hnl]

/-- Witness for C7's amended theorem at concrete inputs. -/
theorem C7_forwarder_failure_responses_witness :
    proxyHandler
      { id := "jira", name := "JIRA", backend_url := "http://backend2",
        issuer := "http://issuer", keys_endpoint := "http://jwks",
        vault_connection := some "jira", external_scopes := ["mcp"] }
      { method := "GET", headers := fun _ => none, body := "", query := [],
        proxyPath := "mcp" }
      (Except.ok (some "TOK"))
      (fun _ => AxiosOutcome.errResponse 403 (some "access_denied")) =
      ProxyOutcome.respond 403 "Token Request Failed"
        "Unable to obtain proper tokens." none :=
  (C7_forwarder_failure_responses
    { id := "jira", name := "JIRA", backend_url := "http://backend2",
      issuer := "http://issuer", keys_endpoint := "http://jwks",
      vault_connection := some "jira", external_scopes := ["mcp"] }
    { method := "GET", headers := fun _ => none, body := "", query := [],
      proxyPath := "mcp" }
    (Except.ok (some "TOK"))
    (fun _ => AxiosOutcome.errResponse 403 (some "access_denied"))
    { success := false, needsLinking := false, accessToken := none,
      message := some "access_denied" }
    (by decide) rfl rfl).2 rfl

/-- Helper: the result component of the JWKS fetch path does not depend
on the cache it was given. -/
theorem getSigningKeyFetch_fst_congr (c1 c2 : JsMap CachedKey)
    (fetch : JwksFetch) (ck kid : String) (now : Nat) :
    (getSigningKeyFetch c1 fetch ck kid now).1 =
      (getSigningKeyFetch c2 fetch ck kid now).1 := by
  cases fetch with
  | unreachable => rfl
  | ok keys =>
      have h1 : ∀ (c : JsMap CachedKey),
          getSigningKeyFetch c (JwksFetch.ok keys) ck kid now =
          (match keys.filter (fun k => k.kid = kid) with
           | [k] => (Except.ok k, jsMapSet c ck { key := k, timestamp := now })
           | _ =>
              (Except.error "Error retrieving signing keys from authorization server",
                c)) := fun c => rfl
      rw [h1, h1]
      cases hf : keys.filter (fun k => k.kid = kid) with
      | nil => rfl
      | cons k rest => cases rest <;> rfl

/-- Helper: every error the JWKS fetch path produces is the one generic
message. -/
theorem getSigningKeyFetch_error_msg (c : JsMap CachedKey)
    (fetch : JwksFetch) (ck kid : String) (now : Nat) (msg : String)
    (h : (getSigningKeyFetch c fetch ck kid now).1 = Except.error msg) :
    msg = "Error retrieving signing keys from authorization server" := by
  cases fetch with
  | unreachable => exact (Except.error.inj h).symm
  | ok keys =>
      have h1 : getSigningKeyFetch c (JwksFetch.ok keys) ck kid now =
          (match keys.filter (fun k => k.kid = kid) with
           | [k] => (Except.ok k, jsMapSet c ck { key := k, timestamp := now })
           | _ =>
              (Except.error "Error retrieving signing keys from authorization server",
                c)) := rfl
      rw [h1] at h
      cases hf : keys.filter (fun k => k.kid = kid) with
      | nil => rw [hf] at h; exact (Except.error.inj h).symm
      | cons k rest =>
          rw [hf] at h
          cases rest with
          | nil => cases h
          | cons k2 rest2 => exact (Except.error.inj h).symm

/-- C9 counterexample: an unreachable JWKS document and a fetched
document with no entry matching the kid produce one and the same error
value, so the two failure causes are NOT distinguishable to the
caller. -/
theorem C9_counterexample :
    (getSigningKey [] JwksFetch.unreachable "http://jwks" "kid1" 0).1 =
      Except.error "Error retrieving signing keys from authorization server"
  ∧ (getSigningKey [] (JwksFetch.ok []) "http://jwks" "kid1" 0).1 =
      Except.error "Error retrieving signing keys from authorization server" :=
  ⟨rfl, rfl⟩

/-- C9 (amended): every failure of the JWKS key lookup — unreachable
document, or no unique entry matching the kid — carries the single
generic message "Error retrieving signing keys from authorization
server", so the causes are not distinguishable; and a cached entry of
age ≥ one hour is treated as a miss: the result is the same as with an
empty cache (refetched). -/
theorem C9_jwks_failures_indistinguishable (cache : JsMap CachedKey)
    (fetch : JwksFetch) (url kid : String) (now : Nat) :
    (∀ msg, (getSigningKey cache fetch url kid now).1 = Except.error msg →
      msg = "Error retrieving signing keys from authorization server") ∧
    (∀ e, jsMapGet cache (url ++ ":" ++ kid) = some e →
      KEY_CACHE_TTL ≤ now - e.timestamp →
      (getSigningKey cache fetch url kid now).1 =
        (getSigningKey [] fetch url kid now).1) := by
  constructor
  · intro msg hmsg
    unfold getSigningKey at hmsg
    cases hc : jsMapGet cache (url ++ ":" ++ kid) with
    | none =>
        simp only [hc] at hmsg
        exact getSigningKeyFetch_error_msg _ _ _ _ _ _ hmsg
    | some cached =>
        simp only [hc] at hmsg
        by_cases hh : now - cached.timestamp < KEY_CACHE_TTL
        · rw [if_pos hh] at hmsg; cases hmsg
        · rw [if_neg hh] at hmsg
          exact getSigningKeyFetch_error_msg _ _ _ _ _ _ hmsg
  · intro e he hstale
    have hnone : jsMapGet ([] : JsMap CachedKey) (url ++ ":" ++ kid) = none := rfl
    unfold getSigningKey
    simp only [he, hnone]
    rw [if_neg (by omega)]
    exact getSigningKeyFetch_fst_congr cache [] fetch _ kid now

/-- Witness for C9's amended theorem at concrete inputs: the error
message of a concrete failure is the generic one, and a one-hour-old
cache entry is bypassed in favour of a fresh fetch. -/
theorem C9_jwks_witness :
    (getSigningKey [] JwksFetch.unreachable "http://jwks" "kid2" 5).1 =
      Except.error "Error retrieving signing keys from authorization server"
  ∧ (getSigningKey
      [("http://jwks:kid2",
        { key := { kid := "kid2", material := "OLD" }, timestamp := 0 })]
      (JwksFetch.ok [{ kid := "kid2", material := "NEW" }])
      "http://jwks" "kid2" 3600000).1 =
      (getSigningKey []
        (JwksFetch.ok [{ kid := "kid2", material := "NEW" }])
        "http://jwks" "kid2" 3600000).1 := by
  constructor
  · rfl
  · exact (C9_jwks_failures_indistinguishable
      [("http://jwks:kid2",
        { key := { kid := "kid2", material := "OLD" }, timestamp := 0 })]
      (JwksFetch.ok [{ kid := "kid2", material := "NEW" }])
      "http://jwks" "kid2" 3600000).2
      { key := { kid := "kid2", material := "OLD" }, timestamp := 0 }
      rfl (by decide)

/-! ## String lemmas for the scope rewrite (C8) -/

/-- A space-free pattern cannot match across the inserted separator:
matching `w ++ ' ' :: t` at position 0 is matching `w` at position 0. -/
theorem isPrefixOf_append_space (pat w t : List Char) (hpat : ' ' ∉ pat) :
    pat.isPrefixOf (w ++ ' ' :: t) = pat.isPrefixOf w := by
  revert hpat
  induction pat generalizing w with
  | nil => intro _; simp [List.isPrefixOf]
  | cons p ps ih =>
      intro hpat
      have hp : p ≠ ' ' := fun he => hpat (he ▸ List.mem_cons_self p ps)
      have hps : ' ' ∉ ps := fun he => hpat (List.mem_cons_of_mem p he)
      cases w with
      | nil =>
          show (p == ' ' && ps.isPrefixOf t) = false
          simp [hp]
      | cons a as =>
          show (p == a && ps.isPrefixOf (as ++ ' ' :: t)) =
            (p == a && ps.isPrefixOf as)
          rw [ih as hps]

/-- A true `isPrefixOf` bounds the pattern's length. -/
theorem isPrefixOf_length_le (pat l : List Char)
    (h : pat.isPrefixOf l = true) : pat.length ≤ l.length := by
  induction pat generalizing l with
  | nil => simp
  | cons p ps ih =>
      cases l with
      | nil => cases h
      | cons a as =>
          have h' : (p == a && ps.isPrefixOf as) = true := h
          have h2 : ps.isPrefixOf as = true := by
            simp only [Bool.and_eq_true] at h'
            exact h'.2
          simpa using ih as h2

/-- If the pattern occurs nowhere, `replace` returns the string
unchanged. -/
theorem replaceFirst_of_not_contains (s pat rep : List Char)
    (h : containsSub s pat = false) : replaceFirst s pat rep = s := by
  induction s with
  | nil =>
      have h1 : pat.isPrefixOf [] = false := by
        have : containsSub [] pat = pat.isPrefixOf [] := by
          unfold containsSub; simp
        rw [this] at h
        exact h
      unfold replaceFirst
      simp [h1]
  | cons c cs ih =>
      have h' : (pat.isPrefixOf (c :: cs) || containsSub cs pat) = false := h
      have h1 : pat.isPrefixOf (c :: cs) = false := by
        cases hb : pat.isPrefixOf (c :: cs) <;> simp [hb] at h' ⊢
      have h2 : containsSub cs pat = false := by
        cases hb : containsSub cs pat <;> simp [hb] at h' ⊢
      have e1 : replaceFirst (c :: cs) pat rep =
          if pat.isPrefixOf (c :: cs) then rep ++ (c :: cs).drop pat.length
          else c :: replaceFirst cs pat rep := rfl
      rw [e1, if_neg (by simp [h1]), ih h2]

/-- A space-free string splits to itself. -/
theorem splitSpace_no_space (s : List Char) (h : ' ' ∉ s) :
    splitSpace s = [s] := by
  induction s with
  | nil => rfl
  | cons c cs ih =>
      have hc : c ≠ ' ' := fun he => h (he ▸ List.mem_cons_self c cs)
      have hcs : ' ' ∉ cs := fun he => h (List.mem_cons_of_mem c he)
      have e : splitSpace (c :: cs) =
          (if c = ' ' then [] :: splitSpace cs
           else
            match splitSpace cs with
            | [] => [[c]]
            | w :: ws => (c :: w) :: ws) := rfl
      rw [e, if_neg hc, ih hcs]

/-- Splitting after a space-free first word peels it off. -/
theorem splitSpace_append_space (w t : List Char) (h : ' ' ∉ w) :
    splitSpace (w ++ ' ' :: t) = w :: splitSpace t := by
  induction w with
  | nil =>
      show splitSpace (' ' :: t) = [] :: splitSpace t
      have e : splitSpace (' ' :: t) =
          (if ' ' = ' ' then [] :: splitSpace t
           else
            match splitSpace t with
            | [] => [[' ']]
            | w :: ws => (' ' :: w) :: ws) := rfl
      rw [e, if_pos rfl]
  | cons c cs ih =>
      have hc : c ≠ ' ' := fun he => h (he ▸ List.mem_cons_self c cs)
      have hcs : ' ' ∉ cs := fun he => h (List.mem_cons_of_mem c he)
      show splitSpace (c :: (cs ++ ' ' :: t)) = (c :: cs) :: splitSpace t
      have e : splitSpace (c :: (cs ++ ' ' :: t)) =
          (if c = ' ' then [] :: splitSpace (cs ++ ' ' :: t)
           else
            match splitSpace (cs ++ ' ' :: t) with
            | [] => [[c]]
            | w :: ws => (c :: w) :: ws) := rfl
      rw [e, if_neg hc, ih hcs]

/-- The `replace` with a nonempty space-free pattern distributes over the
first space: it acts on the first word if the pattern occurs there and
on the tail otherwise. -/
theorem replaceFirst_append_space (pat rep w t : List Char)
    (hne : pat ≠ []) (hpat : ' ' ∉ pat) (hw : ' ' ∉ w) :
    replaceFirst (w ++ ' ' :: t) pat rep =
      if containsSub w pat then replaceFirst w pat rep ++ ' ' :: t
      else w ++ ' ' :: replaceFirst t pat rep := by
  induction w with
  | nil =>
      have hp0 : pat.isPrefixOf [] = false := by
        cases pat with
        | nil => exact absurd rfl hne
        | cons p ps => rfl
      have hp1 : pat.isPrefixOf (' ' :: t) = false := by
        cases pat with
        | nil => exact absurd rfl hne
        | cons p ps =>
            have hp : p ≠ ' ' := fun he => hpat (he ▸ List.mem_cons_self p ps)
            show (p == ' ' && ps.isPrefixOf t) = false
            simp [hp]
      have hc0 : containsSub [] pat = false := by
        have : containsSub [] pat = pat.isPrefixOf [] := by
          unfold containsSub; simp
        rw [this, hp0]
      rw [if_neg (by simp [hc0])]
      show replaceFirst (' ' :: t) pat rep = [] ++ ' ' :: replaceFirst t pat rep
      have e1 : replaceFirst (' ' :: t) pat rep =
          if pat.isPrefixOf (' ' :: t) then rep ++ (' ' :: t).drop pat.length
          else ' ' :: replaceFirst t pat rep := rfl
      rw [e1, if_neg (by simp [hp1])]
      rfl
  | cons c cs ih =>
      have hc : c ≠ ' ' := fun he => hw (he ▸ List.mem_cons_self c cs)
      have hcs : ' ' ∉ cs := fun he => hw (List.mem_cons_of_mem c he)
      have hpre : pat.isPrefixOf ((c :: cs) ++ ' ' :: t) = pat.isPrefixOf (c :: cs) :=
        isPrefixOf_append_space pat (c :: cs) t hpat
      have e1 : replaceFirst ((c :: cs) ++ ' ' :: t) pat rep =
          if pat.isPrefixOf ((c :: cs) ++ ' ' :: t) then
            rep ++ ((c :: cs) ++ ' ' :: t).drop pat.length
          else c :: replaceFirst (cs ++ ' ' :: t) pat rep := rfl
      have e2 : replaceFirst (c :: cs) pat rep =
          if pat.isPrefixOf (c :: cs) then rep ++ (c :: cs).drop pat.length
          else c :: replaceFirst cs pat rep := rfl
      have hcont : containsSub (c :: cs) pat =
          (pat.isPrefixOf (c :: cs) || containsSub cs pat) := rfl
      by_cases hp : pat.isPrefixOf (c :: cs) = true
      · have hlen : pat.length ≤ (c :: cs).length := isPrefixOf_length_le _ _ hp
        rw [if_pos (by simp [hcont, hp])]
        rw [e1, hpre, if_pos (by simp [hp]), e2, if_pos (by simp [hp])]
        rw [List.drop_append_of_le_length hlen, List.append_assoc]
      · have hp' : pat.isPrefixOf (c :: cs) = false := by
          cases hb : pat.isPrefixOf (c :: cs)
          · rfl
          · exact absurd hb hp
        rw [e1, hpre, if_neg (by simp [hp']), ih hcs, hcont, hp']
        simp only [Bool.false_or]
        by_cases hcc : containsSub cs pat = true
        · rw [if_pos (by simp [hcc]), if_pos (by simp [hcc])]
          rw [e2, if_neg (by simp [hp'])]
          rfl
        · have hcc' : containsSub cs pat = false := by
            cases hb : containsSub cs pat
            · rfl
            · exact absurd hb hcc
          rw [if_neg (by simp [hcc']), if_neg (by simp [hcc'])]
          rfl

/-- Replacing a string by itself as pattern yields the replacement. -/
theorem replaceFirst_self (pat rep : List Char) :
    replaceFirst pat pat rep = rep := by
  have hpre : pat.isPrefixOf pat = true := by
    induction pat with
    | nil => rfl
    | cons p ps ih =>
        show (p == p && ps.isPrefixOf ps) = true
        simp [ih]
  unfold replaceFirst
  rw [if_pos (by simp [hpre]), List.drop_length, List.append_nil]

/-- Every string contains itself. -/
theorem containsSub_self (pat : List Char) : containsSub pat pat = true := by
  have hpre : pat.isPrefixOf pat = true := by
    induction pat with
    | nil => rfl
    | cons p ps ih =>
        show (p == p && ps.isPrefixOf ps) = true
        simp [ih]
  unfold containsSub
  simp [hpre]

/-- The `split(" ")` is a left inverse of `join(" ")` on nonempty lists of
space-free words. -/
theorem splitSpace_joinSpace (l : List (List Char)) (hne : l ≠ [])
    (h : ∀ s ∈ l, ' ' ∉ s) : splitSpace (joinSpace l) = l := by
  induction l with
  | nil => exact absurd rfl hne
  | cons s rest ih =>
      cases rest with
      | nil =>
          show splitSpace (joinSpace [s]) = [s]
          rw [show joinSpace [s] = s from rfl,
            splitSpace_no_space s (h s (List.mem_cons_self s []))]
      | cons s2 r2 =>
          rw [show joinSpace (s :: s2 :: r2) = s ++ ' ' :: joinSpace (s2 :: r2) from rfl,
            splitSpace_append_space _ _ (h s (List.mem_cons_self s _)),
            ih (by simp) (fun x hx => h x (List.mem_cons_of_mem s hx))]

/-- The claimed per-element substitution is the identity on lists not
containing `refresh_token`. -/
theorem map_subst_of_not_mem (t : List (List Char))
    (h : "refresh_token".toList ∉ t) :
    t.map (fun s =>
      if s = "refresh_token".toList then "offline_access".toList else s) = t := by
  induction t with
  | nil => rfl
  | cons a r ih =>
      have ha : a ≠ "refresh_token".toList :=
        fun he => h (he ▸ List.mem_cons_self a r)
      simp only [List.map_cons, if_neg ha,
        ih (fun hm => h (List.mem_cons_of_mem a hm))]

/-- C8 counterexample: `join(" ").replace(...).split(" ")` replaces only
the FIRST occurrence of the substring `refresh_token` (JavaScript
`String.prototype.replace` with a string pattern), so for the scope list
`["refresh_token", "refresh_token"]` the transmitted list is
`["offline_access", "refresh_token"]`, not the claimed element-wise
`["offline_access", "offline_access"]`. -/
theorem C8_counterexample :
    finalScopes ["refresh_token".toList, "refresh_token".toList] =
      ["offline_access".toList, "refresh_token".toList]
  ∧ finalScopes ["refresh_token".toList, "refresh_token".toList] ≠
      ["refresh_token".toList, "refresh_token".toList].map
        (fun s =>
          if s = "refresh_token".toList then "offline_access".toList else s) := by
  constructor <;> decide

/-- C8 (amended): the transmitted scope list is obtained by joining the
input with spaces, replacing the first occurrence of the substring
`refresh_token` with `offline_access`, and splitting on spaces.  When
the input is nonempty, its elements are space-free, any element
containing `refresh_token` equals it exactly, and at most one element
equals `refresh_token`, this coincides with the claim's element-wise
substitution: every element equal to `refresh_token` is replaced by
`offline_access` and every other element is transmitted unchanged. -/
theorem C8_scope_rewrite_first_occurrence (scopes : List (List Char))
    (hne : scopes ≠ [])
    (hsp : ∀ s ∈ scopes, ' ' ∉ s)
    (hct : ∀ s ∈ scopes,
      containsSub s "refresh_token".toList = true → s = "refresh_token".toList)
    (hcount : scopes.count "refresh_token".toList ≤ 1) :
    finalScopes scopes =
      scopes.map (fun s =>
        if s = "refresh_token".toList then "offline_access".toList else s) := by
  revert hne hsp hct hcount
  induction scopes with
  | nil => intro hne _ _ _; exact absurd rfl hne
  | cons s rest ih =>
      intro _hne hsp hct hcount
      cases rest with
      | nil =>
          by_cases hs : s = "refresh_token".toList
          · subst hs
            unfold finalScopes
            rw [show joinSpace ["refresh_token".toList] = "refresh_token".toList from rfl,
              replaceFirst_self, splitSpace_no_space _ (by decide),
              List.map_cons, List.map_nil, if_pos rfl]
          · have hcs : containsSub s "refresh_token".toList = false := by
              cases hb : containsSub s "refresh_token".toList
              · rfl
              · exact absurd (hct s (List.mem_cons_self s []) hb) hs
            unfold finalScopes
            rw [show joinSpace [s] = s from rfl,
              replaceFirst_of_not_contains _ _ _ hcs,
              splitSpace_no_space s (hsp s (List.mem_cons_self s [])),
              List.map_cons, List.map_nil, if_neg hs]
      | cons s2 r2 =>
          unfold finalScopes
          rw [show joinSpace (s :: s2 :: r2) = s ++ ' ' :: joinSpace (s2 :: r2) from rfl,
            replaceFirst_append_space _ _ _ _ (by decide) (by decide)
              (hsp s (List.mem_cons_self s _))]
          by_cases hcont : containsSub s "refresh_token".toList = true
          · have hs : s = "refresh_token".toList :=
              hct s (List.mem_cons_self s _) hcont
            subst hs
            rw [if_pos hcont, replaceFirst_self]
            have hnotin : "refresh_token".toList ∉ (s2 :: r2) := by
              intro hmem
              have h1 : 0 < (s2 :: r2).count "refresh_token".toList :=
                List.count_pos_iff.mpr hmem
              have h2 : ("refresh_token".toList :: s2 :: r2).count "refresh_token".toList =
                  (s2 :: r2).count "refresh_token".toList + 1 :=
                List.count_cons_self _ _
              omega
            rw [show ("offline_access".toList ++ ' ' :: joinSpace (s2 :: r2)) =
                joinSpace ("offline_access".toList :: s2 :: r2) from rfl]
            rw [splitSpace_joinSpace _ (by simp) ?_]
            · rw [List.map_cons, if_pos rfl, map_subst_of_not_mem _ hnotin]
            · intro x hx
              rcases List.mem_cons.mp hx with hx1 | hx2
              · subst hx1; decide
              · exact hsp x (List.mem_cons_of_mem _ hx2)
          · have hcf : containsSub s "refresh_token".toList = false := by
              cases hb : containsSub s "refresh_token".toList
              · rfl
              · exact absurd hb hcont
            have hsne : s ≠ "refresh_token".toList := by
              intro he
              rw [he, containsSub_self] at hcf
              cases hcf
            rw [if_neg (fun hcontr => by rw [hcf] at hcontr; cases hcontr),
              splitSpace_append_space _ _ (hsp s (List.mem_cons_self s _))]
            have hrw : splitSpace (replaceFirst (joinSpace (s2 :: r2))
                "refresh_token".toList "offline_access".toList) =
                finalScopes (s2 :: r2) := rfl
            have hmono : (s2 :: r2).count "refresh_token".toList ≤
                (s :: s2 :: r2).count "refresh_token".toList := by
              nth_rewrite 2 [List.count_cons]
              exact Nat.le_add_right _ _
            rw [hrw, ih (by simp)
              (fun x hx => hsp x (List.mem_cons_of_mem s hx))
              (fun x hx hcx => hct x (List.mem_cons_of_mem s hx) hcx)
              (le_trans hmono hcount)]
            conv_rhs => rw [List.map_cons]
            rw [if_neg hsne]

/-- Witness for C8's amended theorem at a concrete input: a scope list
with one `refresh_token` placeholder and one ordinary scope. -/
theorem C8_scope_rewrite_witness :
    finalScopes ["refresh_token".toList, "repo".toList] =
      ["offline_access".toList, "repo".toList] := by
  have h := C8_scope_rewrite_first_occurrence
    ["refresh_token".toList, "repo".toList]
    (by decide) (by decide) (by decide) (by decide)
  rw [h]
  decide

/-! ## Flow-composition lemmas for the browser round-trip (C6) -/

/-- With a resolvable tenant, /authorize stores the outbound entry
carrying the client's inbound state and parameter bag. -/
theorem authorizeHandler_caches (env : Env)
    (getTenant : String → Option TenantConfig) (tid : String) (q : Params)
    (OS N : String) (ob0 : JsMap OutboundCacheEntry) (t0 : Nat)
    (tenant : TenantConfig) (ht : getTenant tid = some tenant) :
    (authorizeHandler env getTenant tid q OS N ob0 t0).2 =
      cacheOutboundRequest ob0 OS
        [("client_id", env.VSCODE_CLIENT),
         ("redirect_uri", env.PROXY_BASE_URL ++ "/callback"),
         ("response_type", "code"),
         ("scope", "openid"),
         ("state", OS),
         ("nonce", N)]
        (paramsGet q "state") q none tid t0 := by
  unfold authorizeHandler
  simp only [ht]

/-- The /callback success branch: with a live outbound entry, all IdP
exchanges succeeding and the vault exchange succeeding, the handler
clears the entry, mints a return code, and redirects to the original
redirect_uri carrying the original state. -/
theorem callbackHandler_success (env : Env)
    (getTenant : String → Option TenantConfig) (cq : Params)
    (idT jagT agentT : Option String) (va : Except String (Option String))
    (vc : String → AxiosOutcome) (la : Except String String) (LS : String)
    (ccall : ConnectRequestBody → ConnectOutcome) (NC : String)
    (ob : JsMap OutboundCacheEntry) (sess : JsMap SessionCacheEntry)
    (ret : JsMap ReturnCacheEntry) (t1 : Nat) (OS C : String)
    (entry : OutboundCacheEntry) (tenant : TenantConfig)
    (vres : VaultExchangeResult)
    (herr : paramsGet cq "error" = none)
    (hstate : paramsGet cq "state" = some OS) (hOS : OS ≠ "")
    (hcode : paramsGet cq "code" = some C) (hC : C ≠ "")
    (hentry : jsMapGet ob OS = some entry)
    (hfresh : ¬ (t1 - entry.createdAt > CACHE_TTL_MS))
    (htl : getTenant entry.tenantId = some tenant)
    (hex : exchangeOktaAccessToken va vc = Except.ok (some vres))
    (hsucc : vres.success = true) :
    callbackHandler env getTenant cq (Except.ok idT) (Except.ok jagT)
      (Except.ok agentT) va vc la LS ccall NC ob sess ret t1 =
      (FlowResponse.redirect
        (jsTemplate (paramsGet entry.originalParameters "redirect_uri") ++
          "?code=" ++ NC ++ "&state=" ++ jsTemplate entry.originalState),
       clearCachedOutboundRequest ob OS,
       sess,
       addToCache ret NC agentT entry.originalState entry.tenantId
         entry.originalParameters t1) := by
  unfold callbackHandler
  simp only [herr, hstate, hcode, jsTruthy, Option.getD_some]
  rw [if_neg (by simp)]
  rw [if_neg (by simp [hOS])]
  rw [if_neg (by simp [hC])]
  have hlook : getCachedOutboundRequest ob OS t1 = (some entry, ob) := by
    unfold getCachedOutboundRequest
    simp only [hentry]
    rw [if_neg hfresh]
  simp only [hlook, htl, hex, hsucc, if_true]

/-- The /callback needs-linking branch: with the vault exchange
reporting needs-linking and begin-link succeeding, the handler stores
the link session, re-caches the outbound entry with the staged agent
token, and redirects the browser to the vault's link URL. -/
theorem callbackHandler_needs_linking (env : Env)
    (getTenant : String → Option TenantConfig) (cq : Params)
    (idT jagT agentT : Option String) (va : Except String (Option String))
    (vc : String → AxiosOutcome) (A0 : String) (LS : String)
    (ccall : ConnectRequestBody → ConnectOutcome) (NC : String)
    (ob : JsMap OutboundCacheEntry) (sess : JsMap SessionCacheEntry)
    (ret : JsMap ReturnCacheEntry) (t1 : Nat) (OS C : String)
    (entry : OutboundCacheEntry) (tenant : TenantConfig)
    (vres : VaultExchangeResult) (auth_sess curi ticket : String)
    (herr : paramsGet cq "error" = none)
    (hstate : paramsGet cq "state" = some OS) (hOS : OS ≠ "")
    (hcode : paramsGet cq "code" = some C) (hC : C ≠ "")
    (hentry : jsMapGet ob OS = some entry)
    (hfresh : ¬ (t1 - entry.createdAt > CACHE_TTL_MS))
    (htl : getTenant entry.tenantId = some tenant)
    (hex : exchangeOktaAccessToken va vc = Except.ok (some vres))
    (hsucc : vres.success = false) (hneed : vres.needsLinking = true)
    (hconn : ccall
        { connection := tenant.vault_connection,
          redirect_uri := env.PROXY_BASE_URL ++ "/connected_account_callback",
          state := LS,
          scopes := finalScopes (tenant.external_scopes.map String.toList) } =
      ConnectOutcome.ok auth_sess curi ticket) :
    callbackHandler env getTenant cq (Except.ok idT) (Except.ok jagT)
      (Except.ok agentT) va vc (Except.ok A0) LS ccall NC ob sess ret t1 =
      (FlowResponse.redirect (curi ++ "?ticket=" ++ ticket),
       cacheOutboundRequest ob OS entry.parameters entry.originalState
         entry.originalParameters agentT entry.tenantId t1,
       cacheAuthSession sess LS OS auth_sess A0 t1,
       ret) := by
  unfold callbackHandler
  simp only [herr, hstate, hcode, jsTruthy, Option.getD_some]
  rw [if_neg (by simp)]
  rw [if_neg (by simp [hOS])]
  rw [if_neg (by simp [hC])]
  have hlook : getCachedOutboundRequest ob OS t1 = (some entry, ob) := by
    unfold getCachedOutboundRequest
    simp only [hentry]
    rw [if_neg hfresh]
  simp only [hlook, htl, hex, hsucc, hneed]
  unfold beginConnectedAccountFlow
  simp [hconn, jsTemplate]

/-- The /connected_account_callback success branch: with a live link
session whose outbound entry is alive, the handler mints a return code
and redirects to the original redirect_uri with the original state. -/
theorem connectedAccountCallback_success (q3 : Params) (NC2 : String)
    (sess : JsMap SessionCacheEntry) (ob : JsMap OutboundCacheEntry)
    (ret : JsMap ReturnCacheEntry) (t2 : Nat) (LS CC : String)
    (sessEntry : SessionCacheEntry) (obEntry : OutboundCacheEntry)
    (hstate : paramsGet q3 "state" = some LS) (hLS : LS ≠ "")
    (hcc : paramsGet q3 "connect_code" = some CC) (hCC : CC ≠ "")
    (hsess : jsMapGet sess LS = some sessEntry)
    (hfresh1 : ¬ (t2 - sessEntry.createdAt > CACHE_TTL_MS))
    (hob : jsMapGet ob sessEntry.oidcState = some obEntry)
    (hfresh2 : ¬ (t2 - obEntry.createdAt > CACHE_TTL_MS)) :
    (connectedAccountCallbackHandler q3 CompleteOutcome.ok NC2 sess ob ret t2).1 =
      FlowResponse.redirect
        (jsTemplate (paramsGet obEntry.originalParameters "redirect_uri") ++
          "?code=" ++ NC2 ++ "&state=" ++ jsTemplate obEntry.originalState) := by
  unfold connectedAccountCallbackHandler
  simp only [hstate, hcc, jsTruthy, Option.getD_some]
  rw [if_neg (by simp [hLS])]
  rw [if_neg (by simp [hCC])]
  have hlook1 : getCachedAuthSession sess LS t2 = (some sessEntry, sess) := by
    unfold getCachedAuthSession
    simp only [hsess]
    rw [if_neg hfresh1]
  have hlook2 : getCachedOutboundRequest ob sessEntry.oidcState t2 =
      (some obEntry, ob) := by
    unfold getCachedOutboundRequest
    simp only [hob]
    rw [if_neg hfresh2]
  simp only [hlook1, hlook2]

/-- C6: in both browser flows — the no-link path (/authorize then
/callback) and the linking path (/authorize then /callback then
/connected_account_callback) — the final redirect to the client's
original redirect_uri carries the client's inbound `state` parameter
byte-for-byte, alongside the freshly generated code. -/
theorem C6_state_round_trip
    (env : Env) (getTenant : String → Option TenantConfig)
    (tid S R OS N C LS CC NC NC2 A0 : String)
    (idT jagT agentT : Option String)
    (q cq q3 : Params)
    (ob0 : JsMap OutboundCacheEntry) (sess0 : JsMap SessionCacheEntry)
    (ret0 : JsMap ReturnCacheEntry) (t0 t1 t2 : Nat)
    (tenant : TenantConfig)
    (va1 va2 : Except String (Option String))
    (vc1 vc2 : String → AxiosOutcome)
    (vres1 vres2 : VaultExchangeResult)
    (ccall : ConnectRequestBody → ConnectOutcome)
    (la : Except String String)
    (auth_sess curi ticket : String)
    (ht : getTenant tid = some tenant)
    (hqS : paramsGet q "state" = some S)
    (hqR : paramsGet q "redirect_uri" = some R)
    (herr : paramsGet cq "error" = none)
    (hcqs : paramsGet cq "state" = some OS) (hOS : OS ≠ "")
    (hcqc : paramsGet cq "code" = some C) (hC : C ≠ "")
    (hq3s : paramsGet q3 "state" = some LS) (hLS : LS ≠ "")
    (hq3c : paramsGet q3 "connect_code" = some CC) (hCC : CC ≠ "")
    (hT1 : t1 - t0 ≤ 900000) (hT2 : t2 - t1 ≤ 900000)
    (hex1 : exchangeOktaAccessToken va1 vc1 = Except.ok (some vres1))
    (hs1 : vres1.success = true)
    (hex2 : exchangeOktaAccessToken va2 vc2 = Except.ok (some vres2))
    (hs2 : vres2.success = false) (hn2 : vres2.needsLinking = true)
    (hconn : ccall
        { connection := tenant.vault_connection,
          redirect_uri := env.PROXY_BASE_URL ++ "/connected_account_callback",
          state := LS,
          scopes := finalScopes (tenant.external_scopes.map String.toList) } =
      ConnectOutcome.ok auth_sess curi ticket) :
    (callbackHandler env getTenant cq (Except.ok idT) (Except.ok jagT)
        (Except.ok agentT) va1 vc1 la LS ccall NC
        (authorizeHandler env getTenant tid q OS N ob0 t0).2 sess0 ret0 t1).1 =
      FlowResponse.redirect (R ++ "?code=" ++ NC ++ "&state=" ++ S) ∧
    (connectedAccountCallbackHandler q3 CompleteOutcome.ok NC2
        (callbackHandler env getTenant cq (Except.ok idT) (Except.ok jagT)
          (Except.ok agentT) va2 vc2 (Except.ok A0) LS ccall NC
          (authorizeHandler env getTenant tid q OS N ob0 t0).2 sess0 ret0 t1).2.2.1
        (callbackHandler env getTenant cq (Except.ok idT) (Except.ok jagT)
          (Except.ok agentT) va2 vc2 (Except.ok A0) LS ccall NC
          (authorizeHandler env getTenant tid q OS N ob0 t0).2 sess0 ret0 t1).2.1
        ret0 t2).1 =
      FlowResponse.redirect (R ++ "?code=" ++ NC2 ++ "&state=" ++ S) := by
  have hA := authorizeHandler_caches env getTenant tid q OS N ob0 t0 tenant ht
  rw [hqS] at hA
  have hOb1 : jsMapGet (authorizeHandler env getTenant tid q OS N ob0 t0).2 OS =
      some
        { tenantId := tid,
          parameters :=
            [("client_id", env.VSCODE_CLIENT),
             ("redirect_uri", env.PROXY_BASE_URL ++ "/callback"),
             ("response_type", "code"),
             ("scope", "openid"),
             ("state", OS),
             ("nonce", N)],
          originalState := some S, originalParameters := q,
          accessToken := none, createdAt := t0 } := by
    rw [hA]
    unfold cacheOutboundRequest
    exact jsMapGet_set_self _ _ _
  constructor
  · have hB := callbackHandler_success env getTenant cq idT jagT agentT va1 vc1
      la LS ccall NC _ sess0 ret0 t1 OS C _ tenant vres1
      herr hcqs hOS hcqc hC hOb1
      (by show ¬ (t1 - t0 > CACHE_TTL_MS); simp only [CACHE_TTL_MS]; omega)
      ht hex1 hs1
    rw [hB]
    simp [hqR, jsTemplate]
  · have hCb := callbackHandler_needs_linking env getTenant cq idT jagT agentT
      va2 vc2 A0 LS ccall NC _ sess0 ret0 t1 OS C _ tenant vres2
      auth_sess curi ticket
      herr hcqs hOS hcqc hC hOb1
      (by show ¬ (t1 - t0 > CACHE_TTL_MS); simp only [CACHE_TTL_MS]; omega)
      ht hex2 hs2 hn2 hconn
    rw [hCb]
    have hsess : jsMapGet (cacheAuthSession sess0 LS OS auth_sess A0 t1) LS =
        some { authSession := auth_sess, state := LS, oidcState := OS,
               userToken := A0, createdAt := t1 } := by
      unfold cacheAuthSession
      exact jsMapGet_set_self _ _ _
    have hob2 : jsMapGet
        (cacheOutboundRequest (authorizeHandler env getTenant tid q OS N ob0 t0).2
          OS
          [("client_id", env.VSCODE_CLIENT),
           ("redirect_uri", env.PROXY_BASE_URL ++ "/callback"),
           ("response_type", "code"),
           ("scope", "openid"),
           ("state", OS),
           ("nonce", N)]
          (some S) q agentT tid t1) OS =
        some
          { tenantId := tid,
            parameters :=
              [("client_id", env.VSCODE_CLIENT),
               ("redirect_uri", env.PROXY_BASE_URL ++ "/callback"),
               ("response_type", "code"),
               ("scope", "openid"),
               ("state", OS),
               ("nonce", N)],
            originalState := some S, originalParameters := q,
            accessToken := agentT, createdAt := t1 } := by
      unfold cacheOutboundRequest
      exact jsMapGet_set_self _ _ _
    have hD := connectedAccountCallback_success q3 NC2 _ _ ret0 t2 LS CC _ _
      hq3s hLS hq3c hCC hsess
      (by show ¬ (t2 - t1 > CACHE_TTL_MS); simp only [CACHE_TTL_MS]; omega)
      hob2
      (by show ¬ (t2 - t1 > CACHE_TTL_MS); simp only [CACHE_TTL_MS]; omega)
    rw [hD]
    simp [hqR, jsTemplate]

/-- Witness for C6 at fully concrete inputs: both flow compositions
produce the final redirect carrying the inbound state `S1`. -/
theorem C6_state_round_trip_witness :
    (callbackHandler
        { PROXY_BASE_URL := "http://proxy", OKTA_DOMAIN := "http://okta",
          VSCODE_CLIENT := "VSC", AUTH0_DOMAIN := "a0.example" }
        (fun t => if t = "github" then
          some { id := "github", name := "GitHub",
                 backend_url := "http://backend", issuer := "http://issuer",
                 keys_endpoint := "http://jwks",
                 vault_connection := some "github",
                 external_scopes := ["repo"] }
          else none)
        [("state", "OS1"), ("code", "AUTH1")]
        (Except.ok (some "IDT")) (Except.ok (some "JAG"))
        (Except.ok (some "AGENT"))
        (Except.ok (some "A")) (fun _ => AxiosOutcome.ok (some "D1"))
        (Except.ok "A0TOK") "LS1"
        (fun _ => ConnectOutcome.ok "SESS" "http://v/connect" "T1") "R1"
        (authorizeHandler
          { PROXY_BASE_URL := "http://proxy", OKTA_DOMAIN := "http://okta",
            VSCODE_CLIENT := "VSC", AUTH0_DOMAIN := "a0.example" }
          (fun t => if t = "github" then
            some { id := "github", name := "GitHub",
                   backend_url := "http://backend", issuer := "http://issuer",
                   keys_endpoint := "http://jwks",
                   vault_connection := some "github",
                   external_scopes := ["repo"] }
            else none)
          "github"
          [("state", "S1"), ("client_id", "C1"),
           ("redirect_uri", "http://client/cb")]
          "OS1" "N1" [] 0).2
        [] [] 10).1 =
      FlowResponse.redirect
        ("http://client/cb" ++ "?code=" ++ "R1" ++ "&state=" ++ "S1") ∧
    (connectedAccountCallbackHandler
        [("state", "LS1"), ("connect_code", "CC1")] CompleteOutcome.ok "R2"
        (callbackHandler
          { PROXY_BASE_URL := "http://proxy", OKTA_DOMAIN := "http://okta",
            VSCODE_CLIENT := "VSC", AUTH0_DOMAIN := "a0.example" }
          (fun t => if t = "github" then
            some { id := "github", name := "GitHub",
                   backend_url := "http://backend", issuer := "http://issuer",
                   keys_endpoint := "http://jwks",
                   vault_connection := some "github",
                   external_scopes := ["repo"] }
            else none)
          [("state", "OS1"), ("code", "AUTH1")]
          (Except.ok (some "IDT")) (Except.ok (some "JAG"))
          (Except.ok (some "AGENT"))
          (Except.ok (some "A"))
          (fun _ => AxiosOutcome.errResponse 401
            (some "federated_connection_refresh_token_not_found"))
          (Except.ok "A0TOK") "LS1"
          (fun _ => ConnectOutcome.ok "SESS" "http://v/connect" "T1") "R1"
          (authorizeHandler
            { PROXY_BASE_URL := "http://proxy", OKTA_DOMAIN := "http://okta",
              VSCODE_CLIENT := "VSC", AUTH0_DOMAIN := "a0.example" }
            (fun t => if t = "github" then
              some { id := "github", name := "GitHub",
                     backend_url := "http://backend", issuer := "http://issuer",
                     keys_endpoint := "http://jwks",
                     vault_connection := some "github",
                     external_scopes := ["repo"] }
              else none)
            "github"
            [("state", "S1"), ("client_id", "C1"),
             ("redirect_uri", "http://client/cb")]
            "OS1" "N1" [] 0).2
          [] [] 10).2.2.1
        (callbackHandler
          { PROXY_BASE_URL := "http://proxy", OKTA_DOMAIN := "http://okta",
            VSCODE_CLIENT := "VSC", AUTH0_DOMAIN := "a0.example" }
          (fun t => if t = "github" then
            some { id := "github", name := "GitHub",
                   backend_url := "http://backend", issuer := "http://issuer",
                   keys_endpoint := "http://jwks",
                   vault_connection := some "github",
                   external_scopes := ["repo"] }
            else none)
          [("state", "OS1"), ("code", "AUTH1")]
          (Except.ok (some "IDT")) (Except.ok (some "JAG"))
          (Except.ok (some "AGENT"))
          (Except.ok (some "A"))
          (fun _ => AxiosOutcome.errResponse 401
            (some "federated_connection_refresh_token_not_found"))
          (Except.ok "A0TOK") "LS1"
          (fun _ => ConnectOutcome.ok "SESS" "http://v/connect" "T1") "R1"
          (authorizeHandler
            { PROXY_BASE_URL := "http://proxy", OKTA_DOMAIN := "http://okta",
              VSCODE_CLIENT := "VSC", AUTH0_DOMAIN := "a0.example" }
            (fun t => if t = "github" then
              some { id := "github", name := "GitHub",
                     backend_url := "http://backend", issuer := "http://issuer",
                     keys_endpoint := "http://jwks",
                     vault_connection := some "github",
                     external_scopes := ["repo"] }
              else none)
            "github"
            [("state", "S1"), ("client_id", "C1"),
             ("redirect_uri", "http://client/cb")]
            "OS1" "N1" [] 0).2
          [] [] 10).2.1
        [] 20).1 =
      FlowResponse.redirect
        ("http://client/cb" ++ "?code=" ++ "R2" ++ "&state=" ++ "S1") :=
  C6_state_round_trip
    { PROXY_BASE_URL := "http://proxy", OKTA_DOMAIN := "http://okta",
      VSCODE_CLIENT := "VSC", AUTH0_DOMAIN := "a0.example" }
    (fun t => if t = "github" then
      some { id := "github", name := "GitHub",
             backend_url := "http://backend", issuer := "http://issuer",
             keys_endpoint := "http://jwks",
             vault_connection := some "github",
             external_scopes := ["repo"] }
      else none)
    "github" "S1" "http://client/cb" "OS1" "N1" "AUTH1" "LS1" "CC1" "R1" "R2"
    "A0TOK" (some "IDT") (some "JAG") (some "AGENT")
    [("state", "S1"), ("client_id", "C1"), ("redirect_uri", "http://client/cb")]
    [("state", "OS1"), ("code", "AUTH1")]
    [("state", "LS1"), ("connect_code", "CC1")]
    [] [] [] 0 10 20
    { id := "github", name := "GitHub", backend_url := "http://backend",
      issuer := "http://issuer", keys_endpoint := "http://jwks",
      vault_connection := some "github", external_scopes := ["repo"] }
    (Except.ok (some "A")) (Except.ok (some "A"))
    (fun _ => AxiosOutcome.ok (some "D1"))
    (fun _ => AxiosOutcome.errResponse 401
      (some "federated_connection_refresh_token_not_found"))
    { success := true, needsLinking := false, accessToken := some "D1",
      message := some "Token retrieved successfully!" }
    { success := false, needsLinking := true, accessToken := none,
      message := some "No credentials found in the vault." }
    (fun _ => ConnectOutcome.ok "SESS" "http://v/connect" "T1")
    (Except.ok "A0TOK") "SESS" "http://v/connect" "T1"
    rfl rfl rfl rfl rfl (by decide) rfl (by decide) rfl (by decide) rfl
    (by decide) (by decide) (by decide) rfl rfl rfl rfl rfl rfl

end TokenVault
